import Mathlib

/-!
# KDSoap `kdwsdl2cpp`: the client-stub generator (`converter_clientstub.cpp`)

A shallow embedding of `Converter::convertClientService` and of the functions it
calls, followed by theorems about the functions the generator adds to the
service class.

Conventions of the embedding

* A `QString` is a `String`; `a + b` is `a ++ b`; `QString("..%1..").arg(x)` is the
  text with `x` in the place of the marker (the documentation string of the async
  initiator has three markers, filled in order).
* The parsed WSDL model (`QName`, `Part`, `Message`, `Operation`, `Binding`,
  `SoapBinding`, ...) and the libkode IR (`KODE::Code`, `KODE::Function`,
  `KODE::Class`) are declared outside `converter_clientstub.cpp`; they are
  records holding what the generator reads and writes.
* The collaborators the generator only calls (`mTypeMap`, `mNameMapper`, the
  lookups of `mWSDL`, `KODE::Style::className`) are fields of the `Converter`
  record, so every theorem holds for all of them. The sort
  `ClassList::sortByDependencies` is modelled from the specification.
* `KODE::Class &newClass` is threaded through: a generator function takes the
  class and returns the updated class.
* `Q_ASSERT` is a failure path: a function whose assertion fails returns `none`.
* `qWarning`/`qDebug` write to the diagnostic stream only and leave the generated
  class untouched; they do not appear in the embedding.
-/

set_option autoImplicit false

/-! ## libkode: the intermediate representation -/

namespace KODE

/-- The flags of `KODE::Function::AccessSpecifier`; a function carries the set
of flags it was built with (`Slot | Private` is `[Slot, Private]`). -/
inductive AccessSpecifier where
  | Public
  | Protected
  | Private
  | Signal
  | Slot
deriving DecidableEq, Repr

/-- One line of a `KODE::Code` block: the indentation level at the time the line
was added, and its text. -/
structure CodeLine where
  indent : Nat
  text : String
deriving DecidableEq, Repr

/-- A `KODE::Code` block: the lines added so far and the current indentation
level. -/
structure Code where
  lines : List CodeLine := []
  level : Nat := 0
deriving DecidableEq, Repr

/-- The statement `code += line`. -/
def Code.addLine (code : Code) (line : String) : Code :=
  { code with lines := code.lines ++ [{ indent := code.level, text := line }] }

/-- The call `code.indent()`. -/
def Code.indent (code : Code) : Code :=
  { code with level := code.level + 1 }

/-- The call `code.unindent()`. -/
def Code.unindent (code : Code) : Code :=
  { code with level := code.level - 1 }

/-- The texts of the lines of a block, in order. -/
def Code.texts (code : Code) : List String :=
  code.lines.map CodeLine.text

/-- An argument of a `KODE::Function`: its declaration (`type name`) and an
optional default value. -/
structure Argument where
  declaration : String
  defaultArgument : String := ""
deriving DecidableEq, Repr

/-- A `KODE::Function`. The constructor `Function(name, returnType, access)` has
the defaults `returnType = QString()` and `access = Public`. -/
structure Function where
  name : String
  returnType : String := ""
  access : List AccessSpecifier := [AccessSpecifier.Public]
  arguments : List Argument := []
  initializers : List String := []
  body : Code := {}
  docs : String := ""
  isConst : Bool := false
deriving DecidableEq, Repr

/-- The call `f.addArgument(declaration)`. -/
def Function.addArgument (f : Function) (declaration : String) : Function :=
  { f with arguments := f.arguments ++ [{ declaration := declaration }] }

/-- The call `f.addArgument(declaration, defaultArgument)`. -/
def Function.addArgumentWithDefault (f : Function) (declaration defaultArgument : String) :
    Function :=
  { f with arguments := f.arguments ++
      [{ declaration := declaration, defaultArgument := defaultArgument }] }

/-- The call `f.addInitializer(initializer)`. -/
def Function.addInitializer (f : Function) (initializer : String) : Function :=
  { f with initializers := f.initializers ++ [initializer] }

/-- The call `f.setBody(code)`. -/
def Function.setBody (f : Function) (code : Code) : Function :=
  { f with body := code }

/-- The call `f.setReturnType(type)`. -/
def Function.setReturnType (f : Function) (type : String) : Function :=
  { f with returnType := type }

/-- The call `f.setDocs(docs)`. -/
def Function.setDocs (f : Function) (docs : String) : Function :=
  { f with docs := docs }

/-- The call `f.setConst(b)`. -/
def Function.setConst (f : Function) (b : Bool) : Function :=
  { f with isConst := b }

/-- The declarations of the arguments of a function, in order. -/
def Function.argumentDeclarations (f : Function) : List String :=
  f.arguments.map Argument.declaration

/-- A `KODE::MemberVariable`. -/
structure MemberVariable where
  name : String
  type : String
  initializer : String := ""
deriving DecidableEq, Repr

/-- A `KODE::Class`, with the parts of it that the client-stub generator
writes. The field `dependencies` follows the data model of the specification
("a set of generated-class dependencies"): the names of the generated classes
that the class declares it depends on. `converter_clientstub.cpp` declares no
dependency for the class it builds. -/
structure Class where
  name : String
  useDPointer : Bool := false
  dPointerName : String := ""
  baseClasses : List String := []
  docs : String := ""
  headerIncludes : List String := []
  includes : List (String × String) := []
  memberVariables : List MemberVariable := []
  functions : List Function := []
  dependencies : List String := []
deriving DecidableEq, Repr

/-- The call `cls.addFunction(f)`: the function is appended to the ordered
function list. -/
def Class.addFunction (cls : Class) (f : Function) : Class :=
  { cls with functions := cls.functions ++ [f] }

/-- The call `cls.addMemberVariable(v)`. -/
def Class.addMemberVariable (cls : Class) (v : MemberVariable) : Class :=
  { cls with memberVariables := cls.memberVariables ++ [v] }

/-- The call `cls.addHeaderInclude(file)`: a file already listed is not listed
again. -/
def Class.addHeaderInclude (cls : Class) (file : String) : Class :=
  if file ∈ cls.headerIncludes then cls
  else { cls with headerIncludes := cls.headerIncludes ++ [file] }

/-- The call `cls.addHeaderIncludes(files)`. -/
def Class.addHeaderIncludes (cls : Class) (files : List String) : Class :=
  files.foldl Class.addHeaderInclude cls

/-- The call `cls.addInclude(file, forwardDeclaration)`. -/
def Class.addInclude (cls : Class) (file forwardDeclaration : String) : Class :=
  { cls with includes := cls.includes ++ [(file, forwardDeclaration)] }

/-- Modelled from the spec: the test of the dependency-respecting sort
(`ClassList::sortByDependencies` of libkode, which is not part of
`converter_clientstub.cpp`) that a class can be emitted: every dependency it
declares is the name of a class emitted already. -/
def dependenciesEmitted (emitted : List Class) (cls : Class) : Bool :=
  cls.dependencies.all (fun dependency => emitted.any (fun e => decide (e.name = dependency)))

/-- Modelled from the spec: one round of the dependency-respecting sort over the
classes still pending, in list order. A class whose dependencies are all emitted
is appended to the emitted classes, any other class is deferred to the next
round. The result is the emitted list and the deferred list. -/
def sortByDependencies_round :
    List Class → List Class → List Class → List Class × List Class
  | emitted, deferred, [] => (emitted, deferred)
  | emitted, deferred, cls :: pending =>
    if dependenciesEmitted emitted cls then
      sortByDependencies_round (emitted ++ [cls]) deferred pending
    else
      sortByDependencies_round emitted (deferred ++ [cls]) pending

/-- Modelled from the spec: the rounds of the dependency-respecting sort. It ends
when no class is pending. A round that emits no class means that the pending
classes depend on each other in a cycle (or on a class that is not generated):
"any cycle is a hard generation error", the sort fails with `none`. Each round
emits at least one class, so as many rounds as there are classes suffice. -/
def sortByDependencies_rounds : Nat → List Class → List Class → Option (List Class)
  | _, emitted, [] => some emitted
  | 0, _, _ :: _ => none
  | rounds + 1, emitted, cls :: pending =>
    let result := sortByDependencies_round emitted [] (cls :: pending)
    if result.2.length < (cls :: pending).length then
      sortByDependencies_rounds rounds result.1 result.2
    else
      none

/-- Modelled from the spec: `ClassList::sortByDependencies` of libkode, which is
not part of `converter_clientstub.cpp`. Following the data model ("the final
emission order is a topological sort over this relation (dependencies before
dependents); any cycle is a hard generation error"), it returns the classes in
an order in which every class comes after the classes it depends on, and fails
when there is no such order. -/
def sortByDependencies (classes : List Class) : Option (List Class) :=
  sortByDependencies_rounds classes.length [] classes

end KODE

/-! ## The parsed WSDL model -/

namespace KWSDL

/-- A qualified name. -/
structure QName where
  nameSpace : String := ""
  localName : String := ""
deriving DecidableEq, Repr

/-- The test `QName::isEmpty()`. -/
def QName.isEmpty (q : QName) : Bool :=
  decide (q.nameSpace = "") && decide (q.localName = "")

/-- A part of a message: a name and a type reference or an element reference. -/
structure Part where
  name : String := ""
  type : QName := {}
  element : QName := {}
deriving DecidableEq, Repr

/-- A message: a name and its parts, in declaration order. -/
structure Message where
  name : String := ""
  parts : List Part := []
deriving DecidableEq, Repr

/-- The lookup `Message::partByName(name)`: the first part of that name, or a
default-constructed part when there is none. -/
def Message.partByName (m : Message) (name : String) : Part :=
  (m.parts.find? (fun part => decide (part.name = name))).getD {}

/-- The four operation kinds of `Operation::OperationType`. -/
inductive OperationType where
  | OneWayOperation
  | RequestResponseOperation
  | SolicitResponseOperation
  | NotificationOperation
deriving DecidableEq, Repr

/-- The input or output of an operation: a reference to a message. -/
structure Param where
  message : QName := {}
deriving DecidableEq, Repr

/-- An operation of a port type. -/
structure Operation where
  name : String
  operationType : OperationType
  input : Param := {}
  output : Param := {}
deriving DecidableEq, Repr

/-- A port type: its operations, in declaration order. -/
structure PortType where
  name : String := ""
  operations : List Operation := []
deriving DecidableEq, Repr

/-- The binding styles `SoapBinding::Style`. -/
inductive Style where
  | RPCStyle
  | DocumentStyle
deriving DecidableEq, Repr

/-- The encoding uses `SoapBinding::Use`. -/
inductive Use where
  | LiteralUse
  | EncodedUse
deriving DecidableEq, Repr

/-- A header binding `SoapBinding::Header`: the message and part it refers to,
and its declared use. -/
structure Header where
  message : QName := {}
  part : String := ""
  use : Use := Use.LiteralUse
deriving DecidableEq, Repr

/-- The identity of a header: the message and the part it refers to. -/
def Header.identity (h : Header) : QName × String :=
  (h.message, h.part)

/-- Modelled from the spec: `SoapBinding::Header::operator==`, which the list
test `soapHeaders.contains(header)` calls, is declared outside
`converter_clientstub.cpp`. Following the data model ("Headers are deduplicated
by (messageRef, partName) identity"), two headers are equal when they refer to
the same message and the same part. -/
def Header.equals (a b : Header) : Bool :=
  decide (a.identity = b.identity)

/-- The body binding of an operation: its use. -/
structure SoapBody where
  use : Use := Use.LiteralUse
deriving DecidableEq, Repr

/-- A `SoapBinding::Operation`: action, input body and input headers. -/
structure SoapOperation where
  action : String := ""
  input : SoapBody := {}
  inputHeaders : List Header := []
deriving DecidableEq, Repr

/-- A `QUrl`, as far as the generator reads it. -/
structure QUrl where
  isValid : Bool := false
  toEncoded : String := ""
deriving DecidableEq, Repr

/-- The record `SoapBinding::Address`. -/
structure Address where
  location : QUrl := {}
deriving DecidableEq, Repr

/-- The record `SoapBinding::Binding`: the style. -/
structure SoapBindingBinding where
  style : Style := Style.RPCStyle
deriving DecidableEq, Repr

/-- A `SoapBinding`. `operations` is the map from operation name to operation
binding; `operations name` is `operations().value(name)`, which yields a
default-constructed value for a name that is not bound. -/
structure SoapBinding where
  binding : SoapBindingBinding := {}
  address : Address := {}
  operations : String → SoapOperation := fun _ => {}

/-- The tags of `Binding::Type`. -/
inductive BindingType where
  | SOAPBinding
  | HTTPBinding
  | MIMEBinding
  | UnknownBinding
deriving DecidableEq, Repr

/-- A binding. -/
structure Binding where
  name : String := ""
  type : BindingType := BindingType.UnknownBinding
  portTypeName : QName := {}
  soapBinding : SoapBinding := {}

/-- A port of a service: the name of its binding. -/
structure Port where
  name : String := ""
  bindingName : QName := {}
deriving DecidableEq, Repr

/-- A service. -/
structure Service where
  name : String := ""
  documentation : String := ""
  ports : List Port := []
deriving DecidableEq, Repr

/-- The parsed document `mWSDL`: the service, the target namespace and the
lookups `findMessage`, `findBinding`, `findPortType`. -/
structure WSDL where
  service : Service := {}
  targetNamespace : String := ""
  findMessage : QName → Message := fun _ => {}
  findBinding : QName → Binding := fun _ => {}
  findPortType : QName → PortType := fun _ => {}

/-- The type mapper `mTypeMap`. -/
structure TypeMap where
  localType : QName → QName → String
  localInputType : QName → QName → String
  isBuiltinType : QName → Bool
  isComplexType : QName → QName → Bool
  headerIncludes : QName → List String

/-- The name mapper `mNameMapper`. -/
structure NameMapper where
  escape : String → String

/-- The generator: the members of `Converter` that `converter_clientstub.cpp`
reads, and the libkode routine `KODE::Style::className` it calls on the service
name. -/
structure Converter where
  mWSDL : WSDL
  mTypeMap : TypeMap
  mNameMapper : NameMapper
  mClasses : List KODE.Class := []
  mQObject : String := "QObject"
  className : String → String := fun s => s

/-- Modelled from the spec: the helper `upperlize` is declared in `converter.h`,
outside `converter_clientstub.cpp`. Following its name and its use (`async<Op>`,
`_kd_slot<Op>Finished`, `set<Part>Header`), it puts the first character in upper
case and leaves the rest unchanged; the case mapping is the one of ASCII
letters. -/
def upperlize (str : String) : String :=
  match str.data with
  | [] => ""
  | ch :: rest => String.mk (ch.toUpper :: rest)

/-- Modelled from the spec: the helper `lowerlize` is declared in `converter.h`,
outside `converter_clientstub.cpp`. Following its name and its use (`<op>Done`,
`<op>Error`, argument names), it puts the first character in lower case and
leaves the rest unchanged; the case mapping is the one of ASCII letters. -/
def lowerlize (str : String) : String :=
  match str.data with
  | [] => ""
  | ch :: rest => String.mk (ch.toLower :: rest)

/-! ## `converter_clientstub.cpp` -/

/-- The static function `soapStyle`. -/
def soapStyle (binding : Binding) : Style :=
  if binding.type = BindingType.SOAPBinding then
    binding.soapBinding.binding.style
  else
    Style.RPCStyle

/-- The static function `getHeaders`. -/
def getHeaders (binding : Binding) (operationName : String) : List Header :=
  if binding.type = BindingType.SOAPBinding then
    (binding.soapBinding.operations operationName).inputHeaders
  else
    []

/-- The method `Converter::clientAddOneArgument`: the updated function and the
updated class. -/
def Converter.clientAddOneArgument (c : Converter) (callFunc : KODE.Function) (part : Part)
    (newClass : KODE.Class) : KODE.Function × KODE.Class :=
  let lowerName := lowerlize part.name
  let argType := c.mTypeMap.localInputType part.type part.element
  let callFunc :=
    if argType ≠ "void" then
      callFunc.addArgument (argType ++ " " ++ c.mNameMapper.escape lowerName)
    else
      callFunc
  (callFunc, newClass.addHeaderIncludes (c.mTypeMap.headerIncludes part.type))

/-- The loop of `Converter::clientAddArguments` over the parts of the message. -/
def Converter.clientAddArguments_parts (c : Converter) :
    List Part → KODE.Function × KODE.Class → KODE.Function × KODE.Class
  | [], st => st
  | part :: rest, (callFunc, newClass) =>
    c.clientAddArguments_parts rest (c.clientAddOneArgument callFunc part newClass)

/-- The method `Converter::clientAddArguments`. -/
def Converter.clientAddArguments (c : Converter) (callFunc : KODE.Function) (message : Message)
    (newClass : KODE.Class) : KODE.Function × KODE.Class :=
  c.clientAddArguments_parts message.parts (callFunc, newClass)

/-- The method `Converter::clientAddAction`: the updated code and the returned
flag `hasAction`. -/
def Converter.clientAddAction (_c : Converter) (code : KODE.Code) (binding : Binding)
    (operationName : String) : KODE.Code × Bool :=
  if binding.type = BindingType.SOAPBinding then
    let op := binding.soapBinding.operations operationName
    if op.action ≠ "" then
      (code.addLine ("const QString action = QString::fromLatin1(\"" ++ op.action ++ "\");"), true)
    else
      (code, false)
  else
    (code, false)

/-- The method `Converter::clientAddMessageArgument`. -/
def Converter.clientAddMessageArgument (c : Converter) (code : KODE.Code) (binding : Binding)
    (part : Part) : KODE.Code :=
  let lowerName := lowerlize part.name
  let argType := c.mTypeMap.localType part.type part.element
  let type := part.type
  let isBuiltin := if !type.isEmpty then c.mTypeMap.isBuiltinType type else false
  if argType ≠ "void" then
    if soapStyle binding = Style.DocumentStyle then
      code.addLine
        ("message.arguments() = " ++ lowerName ++ ".serialize().value<KDSoapValueList>();")
    else
      let partNameStr := "QLatin1String(\"" ++ part.name ++ "\")"
      if isBuiltin then
        code.addLine ("message.addArgument(" ++ partNameStr ++ ", " ++ lowerName ++ ");")
      else
        code.addLine
          ("message.addArgument(" ++ partNameStr ++ ", " ++ lowerName ++ ".serialize());")
  else
    code

/-- The method `Converter::clientGenerateMessage` (the block under `KDAB_TEMP`
is not compiled). -/
def Converter.clientGenerateMessage (c : Converter) (code : KODE.Code) (binding : Binding)
    (message : Message) (operation : Operation) : KODE.Code :=
  let code := code.addLine "KDSoapMessage message;"
  let code :=
    if binding.type = BindingType.SOAPBinding then
      let op := binding.soapBinding.operations operation.name
      if op.input.use = Use.EncodedUse then
        code.addLine "message.setUse(KDSoapMessage::EncodedUse);"
      else
        code.addLine "message.setUse(KDSoapMessage::LiteralUse);"
    else
      code
  message.parts.foldl (fun code part => c.clientAddMessageArgument code binding part) code

/-- The first part of `Converter::convertClientCall`, up to the call statement:
the blocking method with its arguments, the code of the request (action,
message construction, call line) and the class as left by
`clientAddArguments`. -/
def Converter.convertClientCall_request (c : Converter) (operation : Operation)
    (binding : Binding) (newClass : KODE.Class) : KODE.Function × KODE.Code × KODE.Class :=
  let methodName := lowerlize operation.name
  let callFunc : KODE.Function :=
    { name := c.mNameMapper.escape methodName, returnType := "void",
      access := [KODE.AccessSpecifier.Public] }
  let callFunc := callFunc.setDocs
    ("Blocking call to " ++ operation.name ++ ".\nNot recommended in a GUI thread.")
  let inputMessage := c.mWSDL.findMessage operation.input.message
  let withArguments := c.clientAddArguments callFunc inputMessage newClass
  let code : KODE.Code := {}
  let withAction := c.clientAddAction code binding operation.name
  let hasAction := withAction.2
  let code := c.clientGenerateMessage withAction.1 binding inputMessage operation
  let callLine := "d_ptr->m_lastReply = clientInterface()->call(QLatin1String(\"" ++
    operation.name ++ "\"), message"
  let callLine := if hasAction then callLine ++ ", action" else callLine
  let callLine := callLine ++ ");"
  let code := code.addLine callLine
  (withArguments.1, code, withArguments.2)

/-- The loop of `Converter::convertClientCall` over `outParts`, which leaves at
its first iteration: the values of `retType`, `isBuiltin`, `isComplex` after
it. -/
def Converter.convertClientCall_returnValue (c : Converter) (outParts : List Part) :
    String × Bool × Bool :=
  match outParts with
  | [] => ("", false, false)
  | outPart :: _ =>
    (c.mTypeMap.localType outPart.type outPart.element,
      c.mTypeMap.isBuiltinType outPart.type,
      c.mTypeMap.isComplexType outPart.type outPart.element)

/-- The statements that `Converter::convertClientCall` adds after the fault
check to decode the reply. -/
def convertClientCall_decode (binding : Binding) (retType : String) (isBuiltin isComplex : Bool)
    (code : KODE.Code) : KODE.Code :=
  if retType ≠ "void" then
    if isComplex && decide (soapStyle binding = Style.DocumentStyle) then
      let code := code.addLine (retType ++ " ret;")
      let code := code.addLine
        "ret.deserialize(QVariant::fromValue(d_ptr->m_lastReply.arguments()));"
      code.addLine "return ret;"
    else if isBuiltin then
      code.addLine ("return d_ptr->m_lastReply.arguments().first().value().value<" ++
        retType ++ ">();")
    else
      let code := code.addLine (retType ++ " ret;")
      let code := code.addLine "ret.deserialize(d_ptr->m_lastReply.arguments().first().value());"
      code.addLine "return ret;"
  else
    code

/-- The blocking method that `Converter::convertClientCall` builds, and the
class as left by `clientAddArguments`. -/
def Converter.convertClientCall_callFunc (c : Converter) (operation : Operation)
    (binding : Binding) (newClass : KODE.Class) : KODE.Function × KODE.Class :=
  let request := c.convertClientCall_request operation binding newClass
  let callFunc := request.1
  let code := request.2.1
  let outputMessage := c.mWSDL.findMessage operation.output.message
  -- Return value(s)
  let outParts := outputMessage.parts
  let returnValue := c.convertClientCall_returnValue outParts
  let retType := returnValue.1
  let isBuiltin := returnValue.2.1
  let isComplex := returnValue.2.2
  -- `callFunc.setReturnType( retType )` is inside the loop over `outParts`
  let callFunc := if outParts.isEmpty then callFunc else callFunc.setReturnType retType
  let code := code.addLine "if (d_ptr->m_lastReply.isFault())"
  let code := code.indent
  let code := code.addLine ("return " ++ retType ++ "();")
  let code := code.unindent
  let code := convertClientCall_decode binding retType isBuiltin isComplex code
  (callFunc.setBody code, request.2.2)

/-- The method `Converter::convertClientCall`. -/
def Converter.convertClientCall (c : Converter) (operation : Operation) (binding : Binding)
    (newClass : KODE.Class) : KODE.Class :=
  let built := c.convertClientCall_callFunc operation binding newClass
  built.2.addFunction built.1

/-- The async initiator that `Converter::convertClientInputMessage` builds up to
the call line (the watcher lines are added in the request-response branch only),
and the class as left by `clientAddArguments`. -/
def Converter.convertClientInputMessage_asyncFunc (c : Converter) (operation : Operation)
    (binding : Binding) (newClass : KODE.Class) : KODE.Function × KODE.Code × KODE.Class :=
  let operationName := operation.name
  let asyncFunc : KODE.Function :=
    { name := "async" ++ upperlize operationName, returnType := "void",
      access := [KODE.AccessSpecifier.Public] }
  let asyncFunc := asyncFunc.setDocs
    ("Asynchronous call to " ++ operation.name ++ ".\nRemember to connect to " ++
      (lowerlize operationName ++ "Done") ++ " and " ++ (lowerlize operationName ++ "Error") ++ ".")
  let message := c.mWSDL.findMessage operation.input.message
  let withArguments := c.clientAddArguments asyncFunc message newClass
  let code : KODE.Code := {}
  let withAction := c.clientAddAction code binding operation.name
  let hasAction := withAction.2
  let code := c.clientGenerateMessage withAction.1 binding message operation
  let callLine := "KDSoapPendingCall pendingCall = clientInterface()->asyncCall(QLatin1String(\"" ++
    operationName ++ "\"), message"
  let callLine := if hasAction then callLine ++ ", action" else callLine
  let callLine := callLine ++ ");"
  let code := code.addLine callLine
  (withArguments.1, code, withArguments.2)

/-- The method `Converter::convertClientInputMessage`. The function is given its
body and added to the class inside the branch
`operation.operationType() == Operation::RequestResponseOperation`. -/
def Converter.convertClientInputMessage (c : Converter) (operation : Operation)
    (binding : Binding) (newClass : KODE.Class) : KODE.Class :=
  let built := c.convertClientInputMessage_asyncFunc operation binding newClass
  let asyncFunc := built.1
  let code := built.2.1
  let newClass := built.2.2
  if operation.operationType = OperationType.RequestResponseOperation then
    let finishedSlotName := "_kd_slot" ++ upperlize operation.name ++ "Finished"
    let code := code.addLine
      "KDSoapPendingCallWatcher *watcher = new KDSoapPendingCallWatcher(pendingCall, this);"
    let code := code.addLine
      ("connect(watcher, SIGNAL(finished(KDSoapPendingCallWatcher*)),\n" ++
        "        this, SLOT(" ++ finishedSlotName ++ "(KDSoapPendingCallWatcher*)));")
    let asyncFunc := asyncFunc.setBody code
    newClass.addFunction asyncFunc
  else
    newClass

/-- The loop of `Converter::convertClientOutputMessage` over the parts of the
output message, on the state (`doneSignal`, `slotCode`, `partNames`). The
assertion `Q_ASSERT(!partType.isEmpty())` fails with `none`. -/
def Converter.convertClientOutputMessage_parts (c : Converter) (binding : Binding) :
    List Part → KODE.Function × KODE.Code × List String →
      Option (KODE.Function × KODE.Code × List String)
  | [], st => some st
  | part :: rest, (doneSignal, slotCode, partNames) =>
    let partType := c.mTypeMap.localType part.type part.element
    if partType = "" then none
    else
      let isBuiltin := c.mTypeMap.isBuiltinType part.type
      let isComplex := c.mTypeMap.isComplexType part.type part.element
      if partType = "void" then
        c.convertClientOutputMessage_parts binding rest (doneSignal, slotCode, partNames)
      else
        let lowerName := c.mNameMapper.escape (lowerlize part.name)
        let doneSignal := doneSignal.addArgument
          (c.mTypeMap.localInputType part.type part.element ++ " " ++ lowerName)
        if isComplex && decide (soapStyle binding = Style.DocumentStyle) then
          let slotCode := slotCode.addLine (partType ++ " ret;")
          let slotCode := slotCode.addLine "ret.deserialize(QVariant::fromValue(args));"
          c.convertClientOutputMessage_parts binding rest
            (doneSignal, slotCode, partNames ++ ["ret"])
        else
          let value := "args.value(QLatin1String(\"" ++ part.name ++ "\"))"
          if isBuiltin then
            c.convertClientOutputMessage_parts binding rest
              (doneSignal, slotCode, partNames ++ [value ++ ".value<" ++ partType ++ ">()"])
          else
            let slotCode := slotCode.addLine (partType ++ " ret;")
            let slotCode := slotCode.addLine ("ret.deserialize(" ++ value ++ ");")
            c.convertClientOutputMessage_parts binding rest
              (doneSignal, slotCode, partNames ++ ["ret"])

/-- The three functions that `Converter::convertClientOutputMessage` builds:
the success signal, the failure signal and the private callback slot. -/
def Converter.convertClientOutputMessage_functions (c : Converter) (operation : Operation)
    (binding : Binding) : Option (KODE.Function × KODE.Function × KODE.Function) :=
  let operationName := lowerlize operation.name
  let doneSignal : KODE.Function :=
    { name := operationName ++ "Done", returnType := "void",
      access := [KODE.AccessSpecifier.Signal] }
  let doneSignal := doneSignal.setDocs
    ("This signal is emitted whenever the call to " ++ operationName ++ "() succeeded.")
  let errorSignal : KODE.Function :=
    { name := operationName ++ "Error", returnType := "void",
      access := [KODE.AccessSpecifier.Signal] }
  let errorSignal := errorSignal.addArgument "const KDSoapMessage& fault"
  let errorSignal := errorSignal.setDocs
    ("This signal is emitted whenever the call to " ++ operationName ++ "() failed.")
  let finishedSlotName := "_kd_slot" ++ upperlize operationName ++ "Finished"
  let finishedSlot : KODE.Function :=
    { name := finishedSlotName, returnType := "void",
      access := [KODE.AccessSpecifier.Slot, KODE.AccessSpecifier.Private] }
  let finishedSlot := finishedSlot.addArgument "KDSoapPendingCallWatcher* watcher"
  let slotCode : KODE.Code := {}
  let slotCode := slotCode.addLine "const KDSoapMessage reply = watcher->returnMessage();"
  let slotCode := slotCode.addLine "if (reply.isFault()) \x7b"
  let slotCode := slotCode.indent
  let slotCode := slotCode.addLine ("emit " ++ errorSignal.name ++ "(reply);")
  let slotCode := slotCode.unindent
  let slotCode := slotCode.addLine "\x7d else \x7b"
  let slotCode := slotCode.indent
  let slotCode := slotCode.addLine "const KDSoapValueList args = reply.arguments();"
  let message := c.mWSDL.findMessage operation.output.message
  match c.convertClientOutputMessage_parts binding message.parts (doneSignal, slotCode, []) with
  | none => none
  | some (doneSignal, slotCode, partNames) =>
    let slotCode := slotCode.addLine
      ("emit " ++ doneSignal.name ++ "( " ++ ",".intercalate partNames ++ " );")
    let slotCode := slotCode.unindent
    let slotCode := slotCode.addLine "\x7d"
    some (doneSignal, errorSignal, finishedSlot.setBody slotCode)

/-- The method `Converter::convertClientOutputMessage`: the two signals are added
to the class, then the slot. -/
def Converter.convertClientOutputMessage (c : Converter) (operation : Operation)
    (binding : Binding) (newClass : KODE.Class) : Option KODE.Class :=
  match c.convertClientOutputMessage_functions operation binding with
  | none => none
  | some (doneSignal, errorSignal, finishedSlot) =>
    some (((newClass.addFunction doneSignal).addFunction errorSignal).addFunction finishedSlot)

/-- The header setter that `Converter::createHeader` builds, and the class as
left by `clientAddOneArgument`. -/
def Converter.createHeader_headerSetter (c : Converter) (header : Header) (binding : Binding)
    (newClass : KODE.Class) : KODE.Function × KODE.Class :=
  let messageName := header.message
  let partName := header.part
  let methodName := "set" ++ upperlize partName
  let methodName :=
    if !("Header".data.isSuffixOf methodName.data) then methodName ++ "Header" else methodName
  let headerSetter : KODE.Function :=
    { name := methodName, returnType := "void", access := [KODE.AccessSpecifier.Public] }
  let headerSetter := headerSetter.setDocs
    ("Sets the header \x27" ++ partName ++ "\x27, for all subsequent method calls.\n")
  let message := c.mWSDL.findMessage messageName
  let part := message.partByName partName
  let withArgument := c.clientAddOneArgument headerSetter part newClass
  let code : KODE.Code := {}
  let code := code.addLine "KDSoapMessage message;"
  let code :=
    if header.use = Use.EncodedUse then
      code.addLine "message.setUse(KDSoapMessage::EncodedUse);"
    else
      code.addLine "message.setUse(KDSoapMessage::LiteralUse);"
  let code := c.clientAddMessageArgument code binding part
  let code := code.addLine
    ("clientInterface()->setHeader( QLatin1String(\"" ++ partName ++ "\"), message );")
  (withArgument.1.setBody code, withArgument.2)

/-- The method `Converter::createHeader`. -/
def Converter.createHeader (c : Converter) (header : Header) (binding : Binding)
    (newClass : KODE.Class) : KODE.Class :=
  let built := c.createHeader_headerSetter header binding newClass
  built.2.addFunction built.1

/-- The `switch` on the operation type in `Converter::convertClientService`. -/
def Converter.convertClientService_dispatch (c : Converter) (operation : Operation)
    (binding : Binding) (newClass : KODE.Class) : Option KODE.Class :=
  match operation.operationType with
  | OperationType.OneWayOperation =>
    some (c.convertClientInputMessage operation binding newClass)
  | OperationType.RequestResponseOperation =>
    let newClass := c.convertClientCall operation binding newClass
    let newClass := c.convertClientInputMessage operation binding newClass
    c.convertClientOutputMessage operation binding newClass
  | OperationType.SolicitResponseOperation =>
    match c.convertClientOutputMessage operation binding newClass with
    | none => none
    | some newClass => some (c.convertClientInputMessage operation binding newClass)
  | OperationType.NotificationOperation =>
    c.convertClientOutputMessage operation binding newClass

/-- The statement `if ( !soapHeaders.contains(header) ) soapHeaders.append( header );`. -/
def collectHeader (soapHeaders : List Header) (header : Header) : List Header :=
  if !(soapHeaders.any (fun other => other.equals header)) then soapHeaders ++ [header]
  else soapHeaders

/-- The loop of `Converter::convertClientService` over the operations of a port
type, on the state (`newClass`, `soapHeaders`): the dispatch on the operation
type, then the collection of the headers of the operation. -/
def Converter.convertClientService_operations (c : Converter) (binding : Binding) :
    List Operation → KODE.Class × List Header → Option (KODE.Class × List Header)
  | [], st => some st
  | operation :: rest, (newClass, soapHeaders) =>
    match c.convertClientService_dispatch operation binding newClass with
    | none => none
    | some newClass =>
      c.convertClientService_operations binding rest
        (newClass, (getHeaders binding operation.name).foldl collectHeader soapHeaders)

/-- The loop of `Converter::convertClientService` over the collected headers. -/
def Converter.convertClientService_headers (c : Converter) (binding : Binding)
    (soapHeaders : List Header) (newClass : KODE.Class) : KODE.Class :=
  soapHeaders.foldl (fun newClass header => c.createHeader header binding newClass) newClass

/-- The private method `clientInterface()` that `Converter::convertClientService`
builds for a SOAP port. -/
def Converter.convertClientService_clientInterface (c : Converter) (webserviceLocation : QUrl) :
    KODE.Function :=
  let clientInterface : KODE.Function :=
    { name := "clientInterface", returnType := "KDSoapClientInterface*",
      access := [KODE.AccessSpecifier.Private] }
  let code : KODE.Code := {}
  let code := code.addLine "if (!d_ptr->m_clientInterface) \x7b"
  let code := code.indent
  let code := code.addLine
    ("const QString endPoint = !d_ptr->m_endPoint.isEmpty() ? d_ptr->m_endPoint : " ++
      "QString::fromLatin1(\"" ++ webserviceLocation.toEncoded ++ "\");")
  let code := code.addLine
    ("const QString messageNamespace = QString::fromLatin1(\"" ++ c.mWSDL.targetNamespace ++ "\");")
  let code := code.addLine
    "d_ptr->m_clientInterface = new KDSoapClientInterface(endPoint, messageNamespace);"
  let code := code.unindent
  let code := code.addLine "\x7d"
  let code := code.addLine "return d_ptr->m_clientInterface;"
  clientInterface.setBody code

/-- The body of the loop of `Converter::convertClientService` over the ports of
the service. -/
def Converter.convertClientService_port (c : Converter) (port : Port) (newClass : KODE.Class) :
    Option KODE.Class :=
  let binding := c.mWSDL.findBinding port.bindingName
  if binding.type = BindingType.SOAPBinding then
    let address := binding.soapBinding.address
    let webserviceLocation : QUrl := if address.location.isValid then address.location else {}
    let newClass := newClass.addFunction (c.convertClientService_clientInterface webserviceLocation)
    let portType := c.mWSDL.findPortType binding.portTypeName
    match c.convertClientService_operations binding portType.operations (newClass, []) with
    | none => none
    | some (newClass, soapHeaders) =>
      some (c.convertClientService_headers binding soapHeaders newClass)
  else
    -- non-SOAP bindings are ignored
    some newClass

/-- The loop of `Converter::convertClientService` over the ports of the
service. -/
def Converter.convertClientService_ports (c : Converter) :
    List Port → KODE.Class → Option KODE.Class
  | [], newClass => some newClass
  | port :: rest, newClass =>
    match c.convertClientService_port port newClass with
    | none => none
    | some newClass => c.convertClientService_ports rest newClass

/-- The service class of `Converter::convertClientService` before the loop over
the ports: includes, member variables, constructor, destructor, `setEndPoint`
and `lastError`. -/
def Converter.convertClientService_scaffolding (c : Converter) : KODE.Class :=
  let service := c.mWSDL.service
  let newClass : KODE.Class := { name := c.className service.name }
  let newClass := { newClass with useDPointer := true, dPointerName := "d_ptr" }
  let newClass := { newClass with baseClasses := newClass.baseClasses ++ [c.mQObject] }
  let newClass := { newClass with docs := service.documentation }
  let newClass := newClass.addHeaderInclude "QObject"
  let newClass := newClass.addHeaderInclude "QString"
  let newClass := newClass.addInclude "KDSoapMessage.h" "KDSoapMessage"
  let newClass := newClass.addInclude "KDSoapClientInterface.h" "KDSoapClientInterface"
  let newClass := newClass.addInclude "KDSoapPendingCallWatcher.h" "KDSoapPendingCallWatcher"
  let newClass := newClass.addMemberVariable
    { name := "m_clientInterface", type := "KDSoapClientInterface*", initializer := "NULL" }
  let newClass := newClass.addMemberVariable { name := "m_lastReply", type := "KDSoapMessage" }
  let newClass := newClass.addMemberVariable { name := "m_endPoint", type := "QString" }
  -- Ctor and dtor
  let ctor : KODE.Function := { name := newClass.name }
  let ctor := ctor.addArgumentWithDefault "QObject* parent" "0"
  let ctor := ctor.addInitializer "QObject(parent)"
  let dtor : KODE.Function := { name := "~" ++ newClass.name }
  let ctorCode : KODE.Code := {}
  let dtorCode : KODE.Code := {}
  let ctor := ctor.setBody ctorCode
  let newClass := newClass.addFunction ctor
  let dtorCode := dtorCode.addLine "delete d_ptr->m_clientInterface;"
  let dtor := dtor.setBody dtorCode
  let newClass := newClass.addFunction dtor
  -- setEndPoint() method
  let setEndPoint : KODE.Function := { name := "setEndPoint", returnType := "void" }
  let setEndPoint := setEndPoint.addArgument "const QString& endPoint"
  let code : KODE.Code := {}
  let code := code.addLine "d_ptr->m_endPoint = endPoint;"
  let setEndPoint := setEndPoint.setBody code
  let setEndPoint := setEndPoint.setDocs
    "Overwrite the end point defined in the .wsdl file, with another http/https URL."
  let newClass := newClass.addFunction setEndPoint
  -- lastError() method
  let lastError : KODE.Function := { name := "lastError", returnType := "QString" }
  let lastError := lastError.setConst true
  let code : KODE.Code := {}
  let code := code.addLine "if (d_ptr->m_lastReply.isFault())"
  let code := code.indent
  let code := code.addLine "return d_ptr->m_lastReply.faultAsString();"
  let code := code.unindent
  let code := code.addLine "return QString();"
  let lastError := lastError.setBody code
  let lastError := lastError.setDocs
    "Return the error from the last blocking call.\nEmpty if no error."
  newClass.addFunction lastError

/-- The method `Converter::convertClientService`: the class list `mClasses` it
leaves. The assertion `Q_ASSERT(!service.name().isEmpty())` fails with `none`, and
so does a failure of `mClasses.sortByDependencies()`; the service class is
appended after the sort. -/
def Converter.convertClientService (c : Converter) : Option (List KODE.Class) :=
  let service := c.mWSDL.service
  if service.name = "" then none
  else
    match c.convertClientService_ports service.ports c.convertClientService_scaffolding with
    | none => none
    | some newClass =>
      match KODE.sortByDependencies c.mClasses with
      | none => none
      | some sorted => some (sorted ++ [newClass])

/-! ## Reference definitions for the statements -/

/-- The argument list that a success signal with one argument per non-void
output part has: for each part whose local type is not `void`, in part order,
the input spelling of its type and its escaped, lowerlized name. The loop of
`convertClientOutputMessage` is compared with it. -/
def doneSignalArguments (c : Converter) (parts : List Part) : List KODE.Argument :=
  (parts.filter (fun part => decide (c.mTypeMap.localType part.type part.element ≠ "void"))).map
    (fun part =>
      { declaration := c.mTypeMap.localInputType part.type part.element ++ " " ++
          c.mNameMapper.escape (lowerlize part.name) })

/-- The header references of a binding, over all operations of a port type, in
the order in which `convertClientService` meets them. -/
def referencedHeaders (binding : Binding) (operations : List Operation) : List Header :=
  operations.flatMap (fun operation => getHeaders binding operation.name)

/-- A sample type mapper: `string` is `QString` (passed as `const QString&`),
`int` is `int`, an absent type and element is `void`, any other type is the
generated class `TNS__<name>`, also for an element reference. -/
def sampleTypeMap : TypeMap where
  localType := fun type element =>
    if type.localName = "string" then "QString"
    else if type.localName = "int" then "int"
    else if type.localName = "" then
      (if element.localName = "" then "void" else "TNS__" ++ element.localName)
    else "TNS__" ++ type.localName
  localInputType := fun type element =>
    if type.localName = "string" then "const QString&"
    else if type.localName = "int" then "int"
    else if type.localName = "" then
      (if element.localName = "" then "void" else "const TNS__" ++ element.localName ++ "&")
    else "const TNS__" ++ type.localName ++ "&"
  isBuiltinType := fun type => decide (type.localName = "string") || decide (type.localName = "int")
  isComplexType := fun type element =>
    !(decide (type.localName = "string") || decide (type.localName = "int")) &&
      !(decide (type.localName = "") && decide (element.localName = ""))
  headerIncludes := fun type => if type.localName = "string" then ["QString"] else []

/-- The schema namespace of the sample builtin types. -/
def xsd (name : String) : QName :=
  { nameSpace := "http://www.w3.org/2001/XMLSchema", localName := name }

/-- The target namespace of the sample document. -/
def tns (name : String) : QName :=
  { nameSpace := "http://example.org/tns", localName := name }

/-- A request message with two builtin parts. -/
def sampleRequest : Message :=
  { name := "AddRequest",
    parts := [{ name := "Name", type := xsd "string" }, { name := "Count", type := xsd "int" }] }

/-- A reply message with one complex-typed part. -/
def sampleReply : Message :=
  { name := "AddReply", parts := [{ name := "Result", type := tns "Employee" }] }

/-- A reply message with two non-void parts, a builtin one and a complex one. -/
def sampleReplyTwo : Message :=
  { name := "ListReply",
    parts :=
      [{ name := "Title", type := xsd "string" }, { name := "Item", type := tns "Employee" }] }

/-- A reply message whose first part has neither a type nor an element (it is
classified `void`) and whose second part is a builtin one. -/
def sampleReplyVoidFirst : Message :=
  { name := "AckReply", parts := [{ name := "Ack" }, { name := "Title", type := xsd "string" }] }

/-- A message with a single builtin part, used as a header. -/
def sampleSession : Message :=
  { name := "Session", parts := [{ name := "Token", type := xsd "string" }] }

/-- A sample operation `add` of the given kind, from `AddRequest` to `AddReply`. -/
def sampleOperation (kind : OperationType) : Operation :=
  { name := "add", operationType := kind,
    input := { message := tns "AddRequest" }, output := { message := tns "AddReply" } }

/-- A sample operation `list` whose output message `ListReply` has two non-void
parts. -/
def sampleOperationTwo : Operation :=
  { name := "list", operationType := OperationType.RequestResponseOperation,
    input := { message := tns "AddRequest" }, output := { message := tns "ListReply" } }

/-- A request-response operation `ping` whose messages are not declared in the
sample document: its input and output message have no parts. -/
def pingOperation : Operation :=
  { name := "ping", operationType := OperationType.RequestResponseOperation,
    input := { message := tns "PingRequest" }, output := { message := tns "PingReply" } }

/-- The operations of the sample port type: `add`, `list` and `find`. -/
def sampleOperations : List Operation :=
  [sampleOperation OperationType.RequestResponseOperation, sampleOperationTwo,
    { name := "find", operationType := OperationType.NotificationOperation,
      output := { message := tns "AddReply" } }]

/-- A header that refers to the part `Token` of the message `Session`. -/
def sessionHeader : Header :=
  { message := tns "Session", part := "Token", use := Use.LiteralUse }

/-- A header that refers to the part `Name` of the message `AddRequest`. -/
def nameHeader : Header :=
  { message := tns "AddRequest", part := "Name", use := Use.LiteralUse }

/-- A SOAP binding of RPC style that declares nothing for its operations. -/
def rpcBinding : Binding :=
  { name := "rpc", type := BindingType.SOAPBinding, portTypeName := tns "DirectoryPortType",
    soapBinding := { binding := { style := Style.RPCStyle } } }

/-- A SOAP binding of Document style that declares nothing for its operations. -/
def documentBinding : Binding :=
  { name := "doc", type := BindingType.SOAPBinding, portTypeName := tns "DirectoryPortType",
    soapBinding := { binding := { style := Style.DocumentStyle } } }

/-- A SOAP binding of RPC style whose operations declare input headers: `add`
the session header, `list` the session header and the name header, `find` the
name header and the session header. -/
def headerBinding : Binding :=
  { name := "rpcWithHeaders", type := BindingType.SOAPBinding,
    portTypeName := tns "DirectoryPortType",
    soapBinding :=
      { binding := { style := Style.RPCStyle },
        operations := fun name =>
          if name = "add" then { inputHeaders := [sessionHeader] }
          else if name = "list" then { inputHeaders := [sessionHeader, nameHeader] }
          else if name = "find" then { inputHeaders := [nameHeader, sessionHeader] }
          else {} } }

/-- The sample document. The service `directory` has a port bound to the SOAP
binding `rpcWithHeaders` and a port bound to an HTTP binding; the port type
`DirectoryPortType` has the operations `add`, `list` and `find`; the four sample
messages are found by local name, and any other message name yields the
default-constructed message, without parts. -/
def sampleWSDL : WSDL :=
  { service :=
      { name := "directory",
        ports := [{ name := "soap", bindingName := tns "rpcWithHeaders" },
          { name := "http", bindingName := tns "get" }] },
    targetNamespace := "http://example.org/tns",
    findMessage := fun name =>
      if name.localName = "AddRequest" then sampleRequest
      else if name.localName = "AddReply" then sampleReply
      else if name.localName = "ListReply" then sampleReplyTwo
      else if name.localName = "Session" then sampleSession
      else {},
    findBinding := fun name =>
      if name.localName = "rpcWithHeaders" then headerBinding
      else if name.localName = "rpc" then rpcBinding
      else if name.localName = "doc" then documentBinding
      else if name.localName = "get" then { name := "get", type := BindingType.HTTPBinding }
      else {},
    findPortType := fun name =>
      if name.localName = "DirectoryPortType" then
        { name := "DirectoryPortType", operations := sampleOperations }
      else {} }

/-- The sample generator. -/
def sampleConverter : Converter :=
  { mWSDL := sampleWSDL, mTypeMap := sampleTypeMap, mNameMapper := { escape := fun s => s } }

/-- The sample generator over a document in which every message name resolves
to the given output message. -/
def sampleConverterWith (outputMessage : Message) : Converter :=
  { sampleConverter with
    mWSDL := { sampleWSDL with findMessage := fun _ => outputMessage } }

/-- An empty class to generate into. -/
def emptyClass : KODE.Class := { name := "Directory" }

/-- The test of `convertClientService` on a port: the binding of the port is a
SOAP binding. -/
def Converter.isSoapPort (c : Converter) (port : Port) : Bool :=
  decide ((c.mWSDL.findBinding port.bindingName).type = BindingType.SOAPBinding)

/-- The generator over the same document, with the ports of the service replaced
by the given ports. -/
def Converter.withPorts (c : Converter) (ports : List Port) : Converter :=
  { c with mWSDL := { c.mWSDL with service := { c.mWSDL.service with ports := ports } } }

/-- The relation between a class and the class a generator step leaves: the step
appended the functions `added` to the function list, may have added header
includes, and changed nothing else. -/
def extendedBy (newClass result : KODE.Class) (added : List KODE.Function) : Prop :=
  result = { newClass with
    functions := newClass.functions ++ added, headerIncludes := result.headerIncludes }

/-- The test for the lazy transport-handle factory among the functions of the
service class: the private method named `clientInterface`. -/
def isTransportFactory (f : KODE.Function) : Bool :=
  decide (f.name = "clientInterface") && decide (f.access = [KODE.AccessSpecifier.Private])

/-- The test for a function emitted for an operation or for a header: it has no
initializer and is not `const`, and it is a signal, a private slot, or a public
method documented as a blocking call ("B..."), an asynchronous call ("A...") or
a header setter ("S..."). The four functions of the scaffolding fail the
test. -/
def isOperationFunction (f : KODE.Function) : Bool :=
  decide (f.initializers = []) && !f.isConst &&
    ((decide (f.access = [KODE.AccessSpecifier.Public]) &&
        (decide (f.docs.data.head? = some 'B') || decide (f.docs.data.head? = some 'A') ||
          decide (f.docs.data.head? = some 'S'))) ||
      decide (f.access = [KODE.AccessSpecifier.Signal]) ||
      decide (f.access = [KODE.AccessSpecifier.Slot, KODE.AccessSpecifier.Private]))

/-- The sample generator for the sample service with its HTTP port only: no port
is bound to SOAP. -/
def sampleConverterNoSoapPort : Converter :=
  sampleConverter.withPorts [{ name := "http", bindingName := tns "get" }]

/-- The sample generator for the sample service with two SOAP ports, bound to
`rpcWithHeaders` and to `doc`. -/
def sampleConverterTwoSoapPorts : Converter :=
  sampleConverter.withPorts
    [{ name := "soap", bindingName := tns "rpcWithHeaders" },
      { name := "soap12", bindingName := tns "doc" }]

/-- The ordering property of a class sequence: for every class of the sequence
and every dependency it declares, a class of that name stands strictly before
it in the sequence. -/
def dependenciesFirst (classes : List KODE.Class) : Prop :=
  ∀ (before : List KODE.Class) (cls : KODE.Class) (after : List KODE.Class),
    classes = before ++ cls :: after →
      ∀ dependency ∈ cls.dependencies, ∃ e ∈ before, e.name = dependency

/-- A generated value class `TNS__Address`, without dependency. -/
def addressClass : KODE.Class := { name := "TNS__Address" }

/-- A generated value class `TNS__Employee`, which depends on `TNS__Address`. -/
def employeeClass : KODE.Class := { name := "TNS__Employee", dependencies := ["TNS__Address"] }

/-- The sample generator after the value classes were generated, the dependent
class first. -/
def sampleConverterWithClasses : Converter :=
  { sampleConverter with mClasses := [employeeClass, addressClass] }

/-- The binding with the action declared for one operation replaced by the
given action; all else is kept. -/
def Binding.withAction (binding : Binding) (operationName action : String) : Binding :=
  { binding with
    soapBinding :=
      { binding.soapBinding with
        operations := fun name =>
          if name = operationName then
            { binding.soapBinding.operations name with action := action }
          else binding.soapBinding.operations name } }

/-- The test that a binding declares an action for an operation: the binding is
a SOAP binding and the action string of the operation is not empty. -/
def declaresAction (binding : Binding) (operationName : String) : Bool :=
  decide (binding.type = BindingType.SOAPBinding) &&
    decide ((binding.soapBinding.operations operationName).action ≠ "")

/-- A request message with a void part between two builtin parts. -/
def sampleRequestWithVoid : Message :=
  { name := "MarkRequest",
    parts := [{ name := "Name", type := xsd "string" }, { name := "Marker" },
      { name := "Count", type := xsd "int" }] }

/-- A name mapper that escapes the reserved word `class` with a leading
underscore and keeps every other name. -/
def keywordNameMapper : NameMapper :=
  { escape := fun name => if name = "class" then "_class" else name }

/-- The sample generator with the name mapper that escapes `class`. -/
def sampleConverterEscaping : Converter :=
  { sampleConverter with mNameMapper := keywordNameMapper }

/-- An input part named `Class`, of builtin type `string`. -/
def classPart : Part := { name := "Class", type := xsd "string" }

/-- A reply message with two complex-typed parts. -/
def sampleReplyTwoComplex : Message :=
  { name := "PairReply",
    parts := [{ name := "Employee", type := tns "Employee" },
      { name := "Address", type := tns "Address" }] }

/-- The form of a statement that decodes an output part in the callback slot: the
declaration of the local variable `ret` with the local type of the part, or a
call of `ret.deserialize` on the argument list or on the argument named after
the part. -/
def isDecodeStatement (c : Converter) (part : Part) (text : String) : Prop :=
  text = c.mTypeMap.localType part.type part.element ++ " ret;" ∨
  text = "ret.deserialize(QVariant::fromValue(args));" ∨
  text = "ret.deserialize(" ++ ("args.value(QLatin1String(\"" ++ part.name ++ "\"))") ++ ");"

/-- The sample generator over the sample document in which the reply message
`AddReply` has a second part after `Result`. -/
def sampleConverterExtraPart : Converter :=
  { sampleConverter with
    mWSDL :=
      { sampleWSDL with
        findMessage := fun name =>
          if name.localName = "AddReply" then
            { name := "AddReply",
              parts := [{ name := "Result", type := tns "Employee" },
                { name := "Title", type := xsd "string" }] }
          else sampleWSDL.findMessage name } }

/-- The generator over the same document, with the message of the given name
replaced by the given message. -/
def Converter.withMessage (c : Converter) (name : QName) (message : Message) : Converter :=
  { c with
    mWSDL :=
      { c.mWSDL with
        findMessage := fun q => if q = name then message else c.mWSDL.findMessage q } }

/-- A message `Auth` with two builtin parts, `X` and `XHeader`. -/
def sampleAuth : Message :=
  { name := "Auth",
    parts := [{ name := "X", type := xsd "string" }, { name := "XHeader", type := xsd "string" }] }

/-- A header that refers to the part `X` of the message `Auth`. -/
def xHeader : Header :=
  { message := tns "Auth", part := "X", use := Use.LiteralUse }

/-- A header that refers to the part `XHeader` of the message `Auth`. -/
def xHeaderHeader : Header :=
  { message := tns "Auth", part := "XHeader", use := Use.LiteralUse }

/-- A header that refers to a part `Token` of the message `AddRequest`: the part
name of the session header, in another message. -/
def otherTokenHeader : Header :=
  { message := tns "AddRequest", part := "Token", use := Use.LiteralUse }

/-- A SOAP binding of RPC style whose operation `add` declares the input
headers `X` and `XHeader`, and whose operation `list` declares the two headers
of part name `Token`. -/
def authBinding : Binding :=
  { name := "rpcWithAuth", type := BindingType.SOAPBinding,
    portTypeName := tns "DirectoryPortType",
    soapBinding :=
      { binding := { style := Style.RPCStyle },
        operations := fun name =>
          if name = "add" then { inputHeaders := [xHeader, xHeaderHeader] }
          else if name = "list" then { inputHeaders := [sessionHeader, otherTokenHeader] }
          else {} } }

end KWSDL

/-! # Theorems -/

namespace KWSDL

/-! ## Frame lemmas: what the helper calls leave unchanged -/

theorem addHeaderInclude_functions (cls : KODE.Class) (file : String) :
    (cls.addHeaderInclude file).functions = cls.functions := by
  unfold KODE.Class.addHeaderInclude
  split <;> rfl

theorem addHeaderIncludes_functions (files : List String) (cls : KODE.Class) :
    (cls.addHeaderIncludes files).functions = cls.functions := by
  unfold KODE.Class.addHeaderIncludes
  induction files generalizing cls with
  | nil => rfl
  | cons file rest ih =>
    rw [List.foldl_cons, ih, addHeaderInclude_functions]

theorem clientAddOneArgument_functions (c : Converter) (callFunc : KODE.Function) (part : Part)
    (newClass : KODE.Class) :
    (c.clientAddOneArgument callFunc part newClass).2.functions = newClass.functions := by
  simp [Converter.clientAddOneArgument, addHeaderIncludes_functions]

theorem clientAddArguments_parts_functions (c : Converter) (parts : List Part)
    (callFunc : KODE.Function) (newClass : KODE.Class) :
    (c.clientAddArguments_parts parts (callFunc, newClass)).2.functions = newClass.functions := by
  induction parts generalizing callFunc newClass with
  | nil => rfl
  | cons part rest ih =>
    rw [Converter.clientAddArguments_parts]
    rw [show c.clientAddOneArgument callFunc part newClass =
      ((c.clientAddOneArgument callFunc part newClass).1,
        (c.clientAddOneArgument callFunc part newClass).2) from rfl]
    rw [ih, clientAddOneArgument_functions]

theorem clientAddOneArgument_name (c : Converter) (callFunc : KODE.Function) (part : Part)
    (newClass : KODE.Class) :
    (c.clientAddOneArgument callFunc part newClass).1.name = callFunc.name ∧
    (c.clientAddOneArgument callFunc part newClass).1.access = callFunc.access ∧
    (c.clientAddOneArgument callFunc part newClass).1.returnType = callFunc.returnType := by
  unfold Converter.clientAddOneArgument
  simp only []
  split <;> simp [KODE.Function.addArgument]

theorem clientAddArguments_parts_name (c : Converter) (parts : List Part)
    (callFunc : KODE.Function) (newClass : KODE.Class) :
    (c.clientAddArguments_parts parts (callFunc, newClass)).1.name = callFunc.name ∧
    (c.clientAddArguments_parts parts (callFunc, newClass)).1.access = callFunc.access ∧
    (c.clientAddArguments_parts parts (callFunc, newClass)).1.returnType = callFunc.returnType := by
  induction parts generalizing callFunc newClass with
  | nil => exact ⟨rfl, rfl, rfl⟩
  | cons part rest ih =>
    rw [Converter.clientAddArguments_parts]
    rw [show c.clientAddOneArgument callFunc part newClass =
      ((c.clientAddOneArgument callFunc part newClass).1,
        (c.clientAddOneArgument callFunc part newClass).2) from rfl]
    have h := clientAddOneArgument_name c callFunc part newClass
    have h2 := ih (c.clientAddOneArgument callFunc part newClass).1
      (c.clientAddOneArgument callFunc part newClass).2
    exact ⟨h2.1.trans h.1, h2.2.1.trans h.2.1, h2.2.2.trans h.2.2⟩

theorem convertClientCall_functions (c : Converter) (operation : Operation) (binding : Binding)
    (newClass : KODE.Class) :
    (c.convertClientCall operation binding newClass).functions =
      newClass.functions ++ [(c.convertClientCall_callFunc operation binding newClass).1] := by
  simp [Converter.convertClientCall, KODE.Class.addFunction, Converter.convertClientCall_callFunc,
    Converter.convertClientCall_request, Converter.clientAddArguments,
    clientAddArguments_parts_functions]

theorem convertClientCall_request_name (c : Converter) (operation : Operation) (binding : Binding)
    (newClass : KODE.Class) :
    (c.convertClientCall_request operation binding newClass).1.name =
        c.mNameMapper.escape (lowerlize operation.name) ∧
    (c.convertClientCall_request operation binding newClass).1.access =
        [KODE.AccessSpecifier.Public] ∧
    (c.convertClientCall_request operation binding newClass).1.returnType = "void" := by
  simp only [Converter.convertClientCall_request, Converter.clientAddArguments]
  exact clientAddArguments_parts_name c _ _ _

theorem convertClientCall_callFunc_name (c : Converter) (operation : Operation) (binding : Binding)
    (newClass : KODE.Class) :
    (c.convertClientCall_callFunc operation binding newClass).1.name =
        c.mNameMapper.escape (lowerlize operation.name) ∧
    (c.convertClientCall_callFunc operation binding newClass).1.access =
        [KODE.AccessSpecifier.Public] := by
  have h := convertClientCall_request_name c operation binding newClass
  simp only [Converter.convertClientCall_callFunc, KODE.Function.setBody]
  split <;> simp [KODE.Function.setReturnType, h.1, h.2.1]

theorem convertClientInputMessage_asyncFunc_name (c : Converter) (operation : Operation)
    (binding : Binding) (newClass : KODE.Class) :
    (c.convertClientInputMessage_asyncFunc operation binding newClass).1.name =
        "async" ++ upperlize operation.name ∧
    (c.convertClientInputMessage_asyncFunc operation binding newClass).1.access =
        [KODE.AccessSpecifier.Public] ∧
    (c.convertClientInputMessage_asyncFunc operation binding newClass).1.returnType = "void" := by
  simp only [Converter.convertClientInputMessage_asyncFunc, Converter.clientAddArguments]
  exact clientAddArguments_parts_name c _ _ _

theorem convertClientInputMessage_asyncFunc_functions (c : Converter) (operation : Operation)
    (binding : Binding) (newClass : KODE.Class) :
    (c.convertClientInputMessage_asyncFunc operation binding newClass).2.2.functions =
      newClass.functions := by
  simp only [Converter.convertClientInputMessage_asyncFunc, Converter.clientAddArguments]
  exact clientAddArguments_parts_functions c _ _ _

/-- What `convertClientInputMessage` adds to the function list: the async
initiator for a request-response operation, nothing for any other kind. -/
theorem convertClientInputMessage_functions (c : Converter) (operation : Operation)
    (binding : Binding) (newClass : KODE.Class) :
    (c.convertClientInputMessage operation binding newClass).functions =
      if operation.operationType = OperationType.RequestResponseOperation then
        newClass.functions ++
          [(c.convertClientInputMessage_asyncFunc operation binding newClass).1.setBody
            (((c.convertClientInputMessage_asyncFunc operation binding newClass).2.1.addLine
              "KDSoapPendingCallWatcher *watcher = new KDSoapPendingCallWatcher(pendingCall, this);"
              ).addLine
              ("connect(watcher, SIGNAL(finished(KDSoapPendingCallWatcher*)),\n" ++
                "        this, SLOT(" ++ ("_kd_slot" ++ upperlize operation.name ++ "Finished") ++
                "(KDSoapPendingCallWatcher*)));"))]
      else newClass.functions := by
  simp only [Converter.convertClientInputMessage]
  split
  · simp only [KODE.Class.addFunction, convertClientInputMessage_asyncFunc_functions]
  · exact convertClientInputMessage_asyncFunc_functions c operation binding newClass

theorem convertClientOutputMessage_parts_doneSignal (c : Converter) (binding : Binding)
    (parts : List Part)
    (hassert : ∀ part ∈ parts, c.mTypeMap.localType part.type part.element ≠ "")
    (doneSignal : KODE.Function) (slotCode : KODE.Code) (partNames : List String) :
    ∃ slotCode1 partNames1,
      c.convertClientOutputMessage_parts binding parts (doneSignal, slotCode, partNames) =
        some ({ doneSignal with arguments := doneSignal.arguments ++ doneSignalArguments c parts },
          slotCode1, partNames1) := by
  induction parts generalizing doneSignal slotCode partNames with
  | nil =>
    exact ⟨slotCode, partNames,
      by simp [Converter.convertClientOutputMessage_parts, doneSignalArguments]⟩
  | cons part rest ih =>
    have hne := hassert part (List.mem_cons_self _ _)
    have hrest : ∀ p ∈ rest, c.mTypeMap.localType p.type p.element ≠ "" :=
      fun p hp => hassert p (List.mem_cons_of_mem _ hp)
    rw [Converter.convertClientOutputMessage_parts]
    simp only [hne, if_false]
    by_cases hvoid : c.mTypeMap.localType part.type part.element = "void"
    · simp only [hvoid, if_true]
      obtain ⟨s1, p1, h1⟩ := ih hrest doneSignal slotCode partNames
      refine ⟨s1, p1, ?_⟩
      rw [h1]
      simp [doneSignalArguments, hvoid]
    · simp only [hvoid, if_false]
      split
      · obtain ⟨s1, p1, h1⟩ := ih hrest (doneSignal.addArgument
          (c.mTypeMap.localInputType part.type part.element ++ " " ++
            c.mNameMapper.escape (lowerlize part.name))) _ _
        refine ⟨s1, p1, ?_⟩
        rw [h1]
        simp [doneSignalArguments, hvoid, KODE.Function.addArgument]
      · split
        · obtain ⟨s1, p1, h1⟩ := ih hrest (doneSignal.addArgument
            (c.mTypeMap.localInputType part.type part.element ++ " " ++
              c.mNameMapper.escape (lowerlize part.name))) _ _
          refine ⟨s1, p1, ?_⟩
          rw [h1]
          simp [doneSignalArguments, hvoid, KODE.Function.addArgument]
        · obtain ⟨s1, p1, h1⟩ := ih hrest (doneSignal.addArgument
            (c.mTypeMap.localInputType part.type part.element ++ " " ++
              c.mNameMapper.escape (lowerlize part.name))) _ _
          refine ⟨s1, p1, ?_⟩
          rw [h1]
          simp [doneSignalArguments, hvoid, KODE.Function.addArgument]


theorem convertClientOutputMessage_parts_ne_none (c : Converter) (binding : Binding)
    (parts : List Part)
    (hassert : ∀ part ∈ parts, c.mTypeMap.localType part.type part.element ≠ "")
    (st : KODE.Function × KODE.Code × List String) :
    c.convertClientOutputMessage_parts binding parts st ≠ none := by
  obtain ⟨s1, p1, h1⟩ := convertClientOutputMessage_parts_doneSignal c binding parts hassert
    st.1 st.2.1 st.2.2
  intro h
  rw [h] at h1
  cases h1

theorem convertClientOutputMessage_parts_eq_some (c : Converter) (binding : Binding)
    (parts : List Part)
    (hassert : ∀ part ∈ parts, c.mTypeMap.localType part.type part.element ≠ "")
    (st res : KODE.Function × KODE.Code × List String)
    (h : c.convertClientOutputMessage_parts binding parts st = some res) :
    res.1 = { st.1 with arguments := st.1.arguments ++ doneSignalArguments c parts } := by
  obtain ⟨s1, p1, h1⟩ := convertClientOutputMessage_parts_doneSignal c binding parts hassert
    st.1 st.2.1 st.2.2
  rw [h] at h1
  cases h1
  rfl

theorem convertClientOutputMessage_functions_some (c : Converter) (operation : Operation)
    (binding : Binding)
    (hassert : ∀ part ∈ (c.mWSDL.findMessage operation.output.message).parts,
      c.mTypeMap.localType part.type part.element ≠ "") :
    ∃ doneSignal errorSignal finishedSlot,
      c.convertClientOutputMessage_functions operation binding =
        some (doneSignal, errorSignal, finishedSlot) ∧
      (doneSignal.name = lowerlize operation.name ++ "Done" ∧
        doneSignal.access = [KODE.AccessSpecifier.Signal] ∧
        doneSignal.arguments =
          doneSignalArguments c (c.mWSDL.findMessage operation.output.message).parts) ∧
      (errorSignal.name = lowerlize operation.name ++ "Error" ∧
        errorSignal.access = [KODE.AccessSpecifier.Signal]) ∧
      (finishedSlot.name = "_kd_slot" ++ upperlize (lowerlize operation.name) ++ "Finished" ∧
        finishedSlot.access = [KODE.AccessSpecifier.Slot, KODE.AccessSpecifier.Private]) := by
  unfold Converter.convertClientOutputMessage_functions
  simp only []
  split
  · rename_i heq
    exact absurd heq (convertClientOutputMessage_parts_ne_none c binding _ hassert _)
  · rename_i d sc pn heq
    have hd := convertClientOutputMessage_parts_eq_some c binding _ hassert _ _ heq
    simp only at hd
    refine ⟨_, _, _, rfl, ⟨?_, ?_, ?_⟩, ⟨rfl, rfl⟩, ⟨rfl, rfl⟩⟩
    · rw [hd]; rfl
    · rw [hd]; rfl
    · rw [hd]; simp [KODE.Function.setDocs]

/-- What `convertClientOutputMessage` adds to the function list when no
assertion fails: the success signal, the failure signal and the callback slot. -/
theorem convertClientOutputMessage_some (c : Converter) (operation : Operation)
    (binding : Binding) (newClass : KODE.Class)
    (hassert : ∀ part ∈ (c.mWSDL.findMessage operation.output.message).parts,
      c.mTypeMap.localType part.type part.element ≠ "") :
    ∃ doneSignal errorSignal finishedSlot resultClass,
      c.convertClientOutputMessage operation binding newClass = some resultClass ∧
      resultClass.functions = newClass.functions ++ [doneSignal, errorSignal, finishedSlot] ∧
      c.convertClientOutputMessage_functions operation binding =
        some (doneSignal, errorSignal, finishedSlot) ∧
      (doneSignal.name = lowerlize operation.name ++ "Done" ∧
        doneSignal.access = [KODE.AccessSpecifier.Signal]) ∧
      (errorSignal.name = lowerlize operation.name ++ "Error" ∧
        errorSignal.access = [KODE.AccessSpecifier.Signal]) ∧
      (finishedSlot.name = "_kd_slot" ++ upperlize (lowerlize operation.name) ++ "Finished" ∧
        finishedSlot.access = [KODE.AccessSpecifier.Slot, KODE.AccessSpecifier.Private]) := by
  obtain ⟨d, e, s, hfun, hd, he, hs⟩ :=
    convertClientOutputMessage_functions_some c operation binding hassert
  refine ⟨d, e, s, ((newClass.addFunction d).addFunction e).addFunction s, ?_, ?_, hfun,
    ⟨hd.1, hd.2.1⟩, he, hs⟩
  · simp only [Converter.convertClientOutputMessage, hfun]
  · simp [KODE.Class.addFunction]

/-- What `convertClientInputMessage` adds for a request-response operation: the
async initiator. -/
theorem convertClientInputMessage_requestResponse (c : Converter) (operation : Operation)
    (binding : Binding) (newClass : KODE.Class)
    (hkind : operation.operationType = OperationType.RequestResponseOperation) :
    ∃ asyncFunc,
      (c.convertClientInputMessage operation binding newClass).functions =
        newClass.functions ++ [asyncFunc] ∧
      asyncFunc.name = "async" ++ upperlize operation.name ∧
      asyncFunc.access = [KODE.AccessSpecifier.Public] := by
  have hinput := convertClientInputMessage_functions c operation binding newClass
  rw [if_pos hkind] at hinput
  have hname := convertClientInputMessage_asyncFunc_name c operation binding newClass
  exact ⟨_, hinput, hname.1, hname.2.1⟩

/-- What `convertClientInputMessage` adds for an operation of any other kind:
nothing. -/
theorem convertClientInputMessage_other (c : Converter) (operation : Operation)
    (binding : Binding) (newClass : KODE.Class)
    (hkind : operation.operationType ≠ OperationType.RequestResponseOperation) :
    (c.convertClientInputMessage operation binding newClass).functions = newClass.functions := by
  have hinput := convertClientInputMessage_functions c operation binding newClass
  rw [if_neg hkind] at hinput
  exact hinput

/-- C1: for a request-response operation the dispatch of `convertClientService`
adds exactly five functions to the class, in this order: the public blocking
method, the public async initiator `async<Op>`, the success signal `<op>Done`,
the failure signal `<op>Error` and the private callback slot
`_kd_slot<Op>Finished`. -/
theorem C1_requestResponse_emits_five_functions (c : Converter) (operation : Operation)
    (binding : Binding) (newClass : KODE.Class)
    (hkind : operation.operationType = OperationType.RequestResponseOperation)
    (hassert : ∀ part ∈ (c.mWSDL.findMessage operation.output.message).parts,
      c.mTypeMap.localType part.type part.element ≠ "") :
    ∃ callFunc asyncFunc doneSignal errorSignal finishedSlot resultClass,
      c.convertClientService_dispatch operation binding newClass = some resultClass ∧
      resultClass.functions =
        newClass.functions ++ [callFunc, asyncFunc, doneSignal, errorSignal, finishedSlot] ∧
      (callFunc = (c.convertClientCall_callFunc operation binding newClass).1 ∧
        callFunc.name = c.mNameMapper.escape (lowerlize operation.name) ∧
        callFunc.access = [KODE.AccessSpecifier.Public]) ∧
      (asyncFunc.name = "async" ++ upperlize operation.name ∧
        asyncFunc.access = [KODE.AccessSpecifier.Public]) ∧
      (doneSignal.name = lowerlize operation.name ++ "Done" ∧
        doneSignal.access = [KODE.AccessSpecifier.Signal]) ∧
      (errorSignal.name = lowerlize operation.name ++ "Error" ∧
        errorSignal.access = [KODE.AccessSpecifier.Signal]) ∧
      (finishedSlot.name = "_kd_slot" ++ upperlize (lowerlize operation.name) ++ "Finished" ∧
        finishedSlot.access = [KODE.AccessSpecifier.Slot, KODE.AccessSpecifier.Private]) := by
  have hcall := convertClientCall_functions c operation binding newClass
  obtain ⟨a, hinput, ha⟩ := convertClientInputMessage_requestResponse c operation binding
    (c.convertClientCall operation binding newClass) hkind
  obtain ⟨d, e, s, r, hout, hfuns, -, hd, he, hs⟩ := convertClientOutputMessage_some c operation
    binding (c.convertClientInputMessage operation binding
      (c.convertClientCall operation binding newClass)) hassert
  refine ⟨(c.convertClientCall_callFunc operation binding newClass).1, a, d, e, s, r, ?_, ?_,
    ⟨rfl, convertClientCall_callFunc_name c operation binding newClass⟩, ha, hd, he, hs⟩
  · simp only [Converter.convertClientService_dispatch, hkind, hout]
  · rw [hfuns, hinput, hcall]
    simp

/-- C1, at the sample operation `add` on the RPC binding. -/
theorem C1_requestResponse_emits_five_functions_witness :
    (sampleOperation OperationType.RequestResponseOperation).operationType =
        OperationType.RequestResponseOperation ∧
    (∀ part ∈ (sampleConverter.mWSDL.findMessage
        (sampleOperation OperationType.RequestResponseOperation).output.message).parts,
      sampleConverter.mTypeMap.localType part.type part.element ≠ "") ∧
    ∃ callFunc asyncFunc doneSignal errorSignal finishedSlot resultClass,
      sampleConverter.convertClientService_dispatch
        (sampleOperation OperationType.RequestResponseOperation) rpcBinding emptyClass =
          some resultClass ∧
      resultClass.functions =
        emptyClass.functions ++ [callFunc, asyncFunc, doneSignal, errorSignal, finishedSlot] ∧
      (callFunc = (sampleConverter.convertClientCall_callFunc
          (sampleOperation OperationType.RequestResponseOperation) rpcBinding emptyClass).1 ∧
        callFunc.name = sampleConverter.mNameMapper.escape
          (lowerlize (sampleOperation OperationType.RequestResponseOperation).name) ∧
        callFunc.access = [KODE.AccessSpecifier.Public]) ∧
      (asyncFunc.name =
          "async" ++ upperlize (sampleOperation OperationType.RequestResponseOperation).name ∧
        asyncFunc.access = [KODE.AccessSpecifier.Public]) ∧
      (doneSignal.name =
          lowerlize (sampleOperation OperationType.RequestResponseOperation).name ++ "Done" ∧
        doneSignal.access = [KODE.AccessSpecifier.Signal]) ∧
      (errorSignal.name =
          lowerlize (sampleOperation OperationType.RequestResponseOperation).name ++ "Error" ∧
        errorSignal.access = [KODE.AccessSpecifier.Signal]) ∧
      (finishedSlot.name = "_kd_slot" ++
          upperlize (lowerlize (sampleOperation OperationType.RequestResponseOperation).name) ++
            "Finished" ∧
        finishedSlot.access = [KODE.AccessSpecifier.Slot, KODE.AccessSpecifier.Private]) :=
  ⟨rfl, by decide,
    C1_requestResponse_emits_five_functions sampleConverter
      (sampleOperation OperationType.RequestResponseOperation) rpcBinding emptyClass rfl
      (by decide)⟩

/-- C2: for a one-way operation the dispatch of `convertClientService` calls
`convertClientInputMessage` only, and that call leaves the function list of the
class as it was: the async initiator is built but never added, because
`addFunction` sits inside the request-response branch. At the sample one-way
operation `add` the class ends with no function at all. -/
theorem C2_oneWay_adds_no_function :
    (∀ (c : Converter) (name : String) (input output : Param) (binding : Binding)
        (newClass : KODE.Class),
      (c.convertClientService_dispatch
        { name := name, operationType := OperationType.OneWayOperation,
          input := input, output := output } binding newClass).map KODE.Class.functions =
        some newClass.functions) ∧
    (sampleConverter.convertClientService_dispatch
        (sampleOperation OperationType.OneWayOperation) rpcBinding emptyClass).map
      (fun cls => cls.functions.map KODE.Function.name) = some [] := by
  refine ⟨?_, by decide⟩
  intro c name input output binding newClass
  simp only [Converter.convertClientService_dispatch, Option.map_some', Option.some.injEq]
  exact convertClientInputMessage_other c _ binding newClass (by simp)

/-- C3: for a solicit-response operation the dispatch of `convertClientService`
leaves the same function list as `convertClientOutputMessage` alone: the call of
`convertClientInputMessage` that follows adds no async initiator. At the sample
solicit-response operation `add` the class ends with the two signals and the
callback slot only. -/
theorem C3_solicitResponse_adds_no_initiator :
    (∀ (c : Converter) (name : String) (input output : Param) (binding : Binding)
        (newClass : KODE.Class),
      (c.convertClientService_dispatch
        { name := name, operationType := OperationType.SolicitResponseOperation,
          input := input, output := output } binding newClass).map KODE.Class.functions =
      (c.convertClientOutputMessage
        { name := name, operationType := OperationType.SolicitResponseOperation,
          input := input, output := output } binding newClass).map KODE.Class.functions) ∧
    (sampleConverter.convertClientService_dispatch
        (sampleOperation OperationType.SolicitResponseOperation) rpcBinding emptyClass).map
      (fun cls => cls.functions.map KODE.Function.name) =
        some ["addDone", "addError", "_kd_slotAddFinished"] := by
  refine ⟨?_, by decide⟩
  intro c name input output binding newClass
  simp only [Converter.convertClientService_dispatch]
  cases h : c.convertClientOutputMessage
    { name := name, operationType := OperationType.SolicitResponseOperation,
      input := input, output := output } binding newClass with
  | none => rfl
  | some cls =>
    simp only [Option.map_some', Option.some.injEq]
    exact convertClientInputMessage_other c _ binding cls (by simp)

/-- C4: for a notification operation the dispatch of `convertClientService` adds
exactly three functions to the class, in this order: the success signal
`<op>Done`, the failure signal `<op>Error` and the private callback slot
`_kd_slot<Op>Finished`; no public method is among them. -/
theorem C4_notification_emits_completion_pair (c : Converter) (operation : Operation)
    (binding : Binding) (newClass : KODE.Class)
    (hkind : operation.operationType = OperationType.NotificationOperation)
    (hassert : ∀ part ∈ (c.mWSDL.findMessage operation.output.message).parts,
      c.mTypeMap.localType part.type part.element ≠ "") :
    ∃ doneSignal errorSignal finishedSlot resultClass,
      c.convertClientService_dispatch operation binding newClass = some resultClass ∧
      resultClass.functions = newClass.functions ++ [doneSignal, errorSignal, finishedSlot] ∧
      (doneSignal.name = lowerlize operation.name ++ "Done" ∧
        doneSignal.access = [KODE.AccessSpecifier.Signal]) ∧
      (errorSignal.name = lowerlize operation.name ++ "Error" ∧
        errorSignal.access = [KODE.AccessSpecifier.Signal]) ∧
      (finishedSlot.name = "_kd_slot" ++ upperlize (lowerlize operation.name) ++ "Finished" ∧
        finishedSlot.access = [KODE.AccessSpecifier.Slot, KODE.AccessSpecifier.Private]) := by
  obtain ⟨d, e, s, r, hout, hfuns, -, hd, he, hs⟩ :=
    convertClientOutputMessage_some c operation binding newClass hassert
  refine ⟨d, e, s, r, ?_, hfuns, hd, he, hs⟩
  simp only [Converter.convertClientService_dispatch, hkind, hout]

/-- C4, at the sample notification operation `add` on the Document binding. -/
theorem C4_notification_emits_completion_pair_witness :
    (sampleOperation OperationType.NotificationOperation).operationType =
        OperationType.NotificationOperation ∧
    (∀ part ∈ (sampleConverter.mWSDL.findMessage
        (sampleOperation OperationType.NotificationOperation).output.message).parts,
      sampleConverter.mTypeMap.localType part.type part.element ≠ "") ∧
    ∃ doneSignal errorSignal finishedSlot resultClass,
      sampleConverter.convertClientService_dispatch
        (sampleOperation OperationType.NotificationOperation) documentBinding emptyClass =
          some resultClass ∧
      resultClass.functions = emptyClass.functions ++ [doneSignal, errorSignal, finishedSlot] ∧
      (doneSignal.name =
          lowerlize (sampleOperation OperationType.NotificationOperation).name ++ "Done" ∧
        doneSignal.access = [KODE.AccessSpecifier.Signal]) ∧
      (errorSignal.name =
          lowerlize (sampleOperation OperationType.NotificationOperation).name ++ "Error" ∧
        errorSignal.access = [KODE.AccessSpecifier.Signal]) ∧
      (finishedSlot.name = "_kd_slot" ++
          upperlize (lowerlize (sampleOperation OperationType.NotificationOperation).name) ++
            "Finished" ∧
        finishedSlot.access = [KODE.AccessSpecifier.Slot, KODE.AccessSpecifier.Private]) :=
  ⟨rfl, by decide,
    C4_notification_emits_completion_pair sampleConverter
      (sampleOperation OperationType.NotificationOperation) documentBinding emptyClass rfl
      (by decide)⟩

/-- C5: the success signal that `convertClientOutputMessage` builds has exactly
one argument per part of the output message whose local type is not `void`, in
message-part order: its argument declarations are, for these parts in order,
the input spelling of the part type followed by the escaped, lowerlized part
name. All non-void parts are included, so their number is the number of
arguments. -/
theorem C5_success_signal_carries_every_non_void_part (c : Converter) (operation : Operation)
    (binding : Binding)
    (hassert : ∀ part ∈ (c.mWSDL.findMessage operation.output.message).parts,
      c.mTypeMap.localType part.type part.element ≠ "") :
    ∃ doneSignal errorSignal finishedSlot,
      c.convertClientOutputMessage_functions operation binding =
        some (doneSignal, errorSignal, finishedSlot) ∧
      doneSignal.argumentDeclarations =
        ((c.mWSDL.findMessage operation.output.message).parts.filter
          (fun part => decide (c.mTypeMap.localType part.type part.element ≠ "void"))).map
          (fun part => c.mTypeMap.localInputType part.type part.element ++ " " ++
            c.mNameMapper.escape (lowerlize part.name)) ∧
      doneSignal.arguments.length =
        (c.mWSDL.findMessage operation.output.message).parts.countP
          (fun part => decide (c.mTypeMap.localType part.type part.element ≠ "void")) := by
  obtain ⟨d, e, s, hfun, hd, -, -⟩ :=
    convertClientOutputMessage_functions_some c operation binding hassert
  refine ⟨d, e, s, hfun, ?_, ?_⟩
  · simp only [KODE.Function.argumentDeclarations, hd.2.2, doneSignalArguments, List.map_map]
    rfl
  · rw [hd.2.2, doneSignalArguments, List.length_map, List.countP_eq_length_filter]

/-- C5, at the sample operation `list`, whose output message has two non-void
parts: the success signal carries both, in declaration order. -/
theorem C5_success_signal_carries_every_non_void_part_witness :
    (∀ part ∈ (sampleConverter.mWSDL.findMessage sampleOperationTwo.output.message).parts,
      sampleConverter.mTypeMap.localType part.type part.element ≠ "") ∧
    ∃ doneSignal errorSignal finishedSlot,
      sampleConverter.convertClientOutputMessage_functions sampleOperationTwo rpcBinding =
        some (doneSignal, errorSignal, finishedSlot) ∧
      doneSignal.argumentDeclarations = ["const QString& title", "const TNS__Employee& item"] ∧
      doneSignal.arguments.length = 2 :=
  ⟨by decide,
    C5_success_signal_carries_every_non_void_part sampleConverter sampleOperationTwo rpcBinding
      (by decide)⟩

/-! ## The header aggregator -/

/-- The body of the blocking method: the request, the fault check, and the decode
statements for the first output part. -/
theorem convertClientCall_callFunc_body (c : Converter) (operation : Operation)
    (binding : Binding) (newClass : KODE.Class) :
    (c.convertClientCall_callFunc operation binding newClass).1.body =
      convertClientCall_decode binding
        (c.convertClientCall_returnValue (c.mWSDL.findMessage operation.output.message).parts).1
        (c.convertClientCall_returnValue (c.mWSDL.findMessage operation.output.message).parts).2.1
        (c.convertClientCall_returnValue (c.mWSDL.findMessage operation.output.message).parts).2.2
        ((((c.convertClientCall_request operation binding newClass).2.1.addLine
          "if (d_ptr->m_lastReply.isFault())").indent.addLine
          ("return " ++ (c.convertClientCall_returnValue
            (c.mWSDL.findMessage operation.output.message).parts).1 ++ "();")).unindent) := by
  simp only [Converter.convertClientCall_callFunc, KODE.Function.setBody]

/-- C7: for an operation whose output message has a single complex-typed,
non-void part, the body of the blocking method is the request followed by the
fault check and the decode statements; with Document style these deserialize
from the whole argument list of the reply, with RPC style they read the first
positional value of the reply. -/
theorem C7_blocking_decode_by_style (c : Converter) (operation : Operation) (binding : Binding)
    (newClass : KODE.Class) (outPart : Part)
    (hparts : (c.mWSDL.findMessage operation.output.message).parts = [outPart])
    (hcomplex : c.mTypeMap.isComplexType outPart.type outPart.element = true)
    (hnonvoid : c.mTypeMap.localType outPart.type outPart.element ≠ "void") :
    (soapStyle binding = Style.DocumentStyle →
      (c.convertClientCall_callFunc operation binding newClass).1.body.texts =
        (c.convertClientCall_request operation binding newClass).2.1.texts ++
          ["if (d_ptr->m_lastReply.isFault())",
            "return " ++ c.mTypeMap.localType outPart.type outPart.element ++ "();",
            c.mTypeMap.localType outPart.type outPart.element ++ " ret;",
            "ret.deserialize(QVariant::fromValue(d_ptr->m_lastReply.arguments()));",
            "return ret;"]) ∧
    (soapStyle binding = Style.RPCStyle →
      (c.convertClientCall_callFunc operation binding newClass).1.body.texts =
        (c.convertClientCall_request operation binding newClass).2.1.texts ++
          ["if (d_ptr->m_lastReply.isFault())",
            "return " ++ c.mTypeMap.localType outPart.type outPart.element ++ "();"] ++
          (if c.mTypeMap.isBuiltinType outPart.type = true then
            ["return d_ptr->m_lastReply.arguments().first().value().value<" ++
              c.mTypeMap.localType outPart.type outPart.element ++ ">();"]
          else
            [c.mTypeMap.localType outPart.type outPart.element ++ " ret;",
              "ret.deserialize(d_ptr->m_lastReply.arguments().first().value());",
              "return ret;"])) := by
  rw [convertClientCall_callFunc_body, hparts]
  constructor
  · intro hstyle
    simp [Converter.convertClientCall_returnValue, convertClientCall_decode, hcomplex, hnonvoid,
      hstyle, KODE.Code.texts, KODE.Code.addLine, KODE.Code.indent, KODE.Code.unindent]
  · intro hstyle
    by_cases hbuiltin : c.mTypeMap.isBuiltinType outPart.type = true
    · simp [Converter.convertClientCall_returnValue, convertClientCall_decode, hcomplex,
        hnonvoid, hstyle, hbuiltin, KODE.Code.texts, KODE.Code.addLine, KODE.Code.indent,
        KODE.Code.unindent]
    · simp [Converter.convertClientCall_returnValue, convertClientCall_decode, hcomplex,
        hnonvoid, hstyle, hbuiltin, KODE.Code.texts, KODE.Code.addLine, KODE.Code.indent,
        KODE.Code.unindent]

/-- C7, at the sample operation `add`, whose reply has the single complex part
`Result`: the two bodies for the Document binding and for the RPC binding. -/
theorem C7_blocking_decode_by_style_witness :
    (sampleConverter.mWSDL.findMessage
        (sampleOperation OperationType.RequestResponseOperation).output.message).parts =
      [{ name := "Result", type := tns "Employee" }] ∧
    sampleConverter.mTypeMap.isComplexType (tns "Employee") {} = true ∧
    sampleConverter.mTypeMap.localType (tns "Employee") {} ≠ "void" ∧
    (sampleConverter.convertClientCall_callFunc
        (sampleOperation OperationType.RequestResponseOperation) documentBinding
        emptyClass).1.body.texts =
      ["KDSoapMessage message;", "message.setUse(KDSoapMessage::LiteralUse);",
        "message.arguments() = name.serialize().value<KDSoapValueList>();",
        "message.arguments() = count.serialize().value<KDSoapValueList>();",
        "d_ptr->m_lastReply = clientInterface()->call(QLatin1String(\"add\"), message);",
        "if (d_ptr->m_lastReply.isFault())", "return TNS__Employee();", "TNS__Employee ret;",
        "ret.deserialize(QVariant::fromValue(d_ptr->m_lastReply.arguments()));", "return ret;"] ∧
    (sampleConverter.convertClientCall_callFunc
        (sampleOperation OperationType.RequestResponseOperation) rpcBinding
        emptyClass).1.body.texts =
      ["KDSoapMessage message;", "message.setUse(KDSoapMessage::LiteralUse);",
        "message.addArgument(QLatin1String(\"Name\"), name);",
        "message.addArgument(QLatin1String(\"Count\"), count);",
        "d_ptr->m_lastReply = clientInterface()->call(QLatin1String(\"add\"), message);",
        "if (d_ptr->m_lastReply.isFault())", "return TNS__Employee();", "TNS__Employee ret;",
        "ret.deserialize(d_ptr->m_lastReply.arguments().first().value());", "return ret;"] :=
  ⟨rfl, rfl, by decide,
    (C7_blocking_decode_by_style sampleConverter
      (sampleOperation OperationType.RequestResponseOperation) documentBinding emptyClass
      { name := "Result", type := tns "Employee" } rfl rfl (by decide)).1 rfl,
    (C7_blocking_decode_by_style sampleConverter
      (sampleOperation OperationType.RequestResponseOperation) rpcBinding emptyClass
      { name := "Result", type := tns "Employee" } rfl rfl (by decide)).2 rfl⟩

/-! ## Outgoing marshaling of a builtin part -/

/-- C8, as stated, fails on the code: for the builtin, non-void part `Name` of
type `string` and the Document-style binding, `clientAddMessageArgument` adds
the assignment of the whole message body from `name.serialize()`, not the
statement `message.addArgument(QLatin1String("Name"), name);`. -/
theorem C8_counterexample_document_style_builtin :
    sampleConverter.mTypeMap.localType (xsd "string") {} ≠ "void" ∧
    (xsd "string").isEmpty = false ∧
    sampleConverter.mTypeMap.isBuiltinType (xsd "string") = true ∧
    soapStyle documentBinding = Style.DocumentStyle ∧
    (sampleConverter.clientAddMessageArgument {} documentBinding
        { name := "Name", type := xsd "string" }).texts =
      ["message.arguments() = name.serialize().value<KDSoapValueList>();"] ∧
    (sampleConverter.clientAddMessageArgument {} documentBinding
        { name := "Name", type := xsd "string" }).texts ≠
      ["message.addArgument(QLatin1String(\"Name\"), name);"] := by
  decide

/-- C8, amended: for a non-void part of builtin type, when the style of the
binding is not Document (it is RPC), `clientAddMessageArgument` adds exactly one
statement, `message.addArgument(QLatin1String("<part name>"), <variable>);`,
which passes the raw value; when the style is Document it adds exactly one
statement, the assignment of the whole message body from
`<variable>.serialize()`. -/
theorem C8_builtin_part_marshaling (c : Converter) (code : KODE.Code) (binding : Binding)
    (part : Part)
    (hnonvoid : c.mTypeMap.localType part.type part.element ≠ "void")
    (htype : part.type.isEmpty = false)
    (hbuiltin : c.mTypeMap.isBuiltinType part.type = true) :
    (soapStyle binding ≠ Style.DocumentStyle →
      (c.clientAddMessageArgument code binding part).lines =
        code.lines ++
          [{ indent := code.level,
             text := "message.addArgument(" ++ ("QLatin1String(\"" ++ part.name ++ "\")") ++
               ", " ++ lowerlize part.name ++ ");" }]) ∧
    (soapStyle binding = Style.DocumentStyle →
      (c.clientAddMessageArgument code binding part).lines =
        code.lines ++
          [{ indent := code.level,
             text := "message.arguments() = " ++ lowerlize part.name ++
               ".serialize().value<KDSoapValueList>();" }]) := by
  constructor
  · intro hstyle
    simp [Converter.clientAddMessageArgument, hnonvoid, htype, hbuiltin, hstyle,
      KODE.Code.addLine]
  · intro hstyle
    simp [Converter.clientAddMessageArgument, hnonvoid, hstyle, KODE.Code.addLine]

/-- C8 amended, at the sample part `Name` of type `string`, on the RPC binding
and on the Document binding. -/
theorem C8_builtin_part_marshaling_witness :
    sampleConverter.mTypeMap.localType (xsd "string") {} ≠ "void" ∧
    (xsd "string").isEmpty = false ∧
    sampleConverter.mTypeMap.isBuiltinType (xsd "string") = true ∧
    (sampleConverter.clientAddMessageArgument {} rpcBinding
        { name := "Name", type := xsd "string" }).lines =
      [{ indent := 0, text := "message.addArgument(QLatin1String(\"Name\"), name);" }] ∧
    (sampleConverter.clientAddMessageArgument {} documentBinding
        { name := "Name", type := xsd "string" }).lines =
      [{ indent := 0,
         text := "message.arguments() = name.serialize().value<KDSoapValueList>();" }] :=
  ⟨by decide, rfl, rfl,
    (C8_builtin_part_marshaling sampleConverter {} rpcBinding
      { name := "Name", type := xsd "string" } (by decide) rfl rfl).1 (by decide),
    (C8_builtin_part_marshaling sampleConverter {} documentBinding
      { name := "Name", type := xsd "string" } (by decide) rfl rfl).2 rfl⟩

/-! ## Return type of the blocking method and first argument of the success signal -/

/-- C9, as stated, fails on the code. For the sample operation `add`, whose
output message has the single non-void part `Result`, the blocking method
returns `TNS__Employee` while the first argument of the success signal is
declared with the input spelling `const TNS__Employee&`. For an output message
whose first part is void and whose second part is a `string`, the blocking
method returns `void` while the first argument of the success signal is the
`const QString&` of the second part. -/
theorem C9_counterexample_return_type_differs :
    ((sampleConverter.convertClientCall_callFunc
        (sampleOperation OperationType.RequestResponseOperation) rpcBinding
        emptyClass).1.returnType = "TNS__Employee" ∧
      (sampleConverter.convertClientOutputMessage_functions
        (sampleOperation OperationType.RequestResponseOperation) rpcBinding).map
        (fun built => built.1.argumentDeclarations) =
          some ["const TNS__Employee& result"] ∧
      "const TNS__Employee& result" ≠ "TNS__Employee" ++ " " ++ "result") ∧
    (((sampleConverterWith sampleReplyVoidFirst).convertClientCall_callFunc
        (sampleOperation OperationType.RequestResponseOperation) rpcBinding
        emptyClass).1.returnType = "void" ∧
      ((sampleConverterWith sampleReplyVoidFirst).convertClientOutputMessage_functions
        (sampleOperation OperationType.RequestResponseOperation) rpcBinding).map
        (fun built => built.1.argumentDeclarations) =
          some ["const QString& title"] ∧
      "const QString& title" ≠ "void" ++ " " ++ "title") := by
  decide

/-- C9, amended: for an operation whose output message has a non-void first
part, the return type of the blocking method is the local type of that part, and
the first argument of the success signal is declared with the input spelling
(`localInputType`) of the type of the same part, followed by the escaped,
lowerlized part name. -/
theorem C9_return_type_and_first_signal_argument (c : Converter) (operation : Operation)
    (binding : Binding) (newClass : KODE.Class) (first : Part) (rest : List Part)
    (hparts : (c.mWSDL.findMessage operation.output.message).parts = first :: rest)
    (hnonvoid : c.mTypeMap.localType first.type first.element ≠ "void")
    (hassert : ∀ part ∈ (c.mWSDL.findMessage operation.output.message).parts,
      c.mTypeMap.localType part.type part.element ≠ "") :
    (c.convertClientCall_callFunc operation binding newClass).1.returnType =
      c.mTypeMap.localType first.type first.element ∧
    ∃ doneSignal errorSignal finishedSlot,
      c.convertClientOutputMessage_functions operation binding =
        some (doneSignal, errorSignal, finishedSlot) ∧
      doneSignal.argumentDeclarations.head? =
        some (c.mTypeMap.localInputType first.type first.element ++ " " ++
          c.mNameMapper.escape (lowerlize first.name)) := by
  constructor
  · simp [Converter.convertClientCall_callFunc, hparts, Converter.convertClientCall_returnValue,
      KODE.Function.setBody, KODE.Function.setReturnType]
  · obtain ⟨d, e, s, hfun, hd, -, -⟩ :=
      convertClientOutputMessage_functions_some c operation binding hassert
    refine ⟨d, e, s, hfun, ?_⟩
    simp [KODE.Function.argumentDeclarations, hd.2.2, doneSignalArguments, hparts, hnonvoid]

/-- C9 amended, at the sample operation `list`, whose output message starts with
the `string` part `Title`. -/
theorem C9_return_type_and_first_signal_argument_witness :
    (sampleConverter.mWSDL.findMessage sampleOperationTwo.output.message).parts =
      { name := "Title", type := xsd "string" } :: [{ name := "Item", type := tns "Employee" }] ∧
    sampleConverter.mTypeMap.localType (xsd "string") {} ≠ "void" ∧
    (∀ part ∈ (sampleConverter.mWSDL.findMessage sampleOperationTwo.output.message).parts,
      sampleConverter.mTypeMap.localType part.type part.element ≠ "") ∧
    ((sampleConverter.convertClientCall_callFunc sampleOperationTwo rpcBinding
        emptyClass).1.returnType = "QString" ∧
      ∃ doneSignal errorSignal finishedSlot,
        sampleConverter.convertClientOutputMessage_functions sampleOperationTwo rpcBinding =
          some (doneSignal, errorSignal, finishedSlot) ∧
        doneSignal.argumentDeclarations.head? = some "const QString& title") :=
  ⟨rfl, by decide, by decide,
    C9_return_type_and_first_signal_argument sampleConverter sampleOperationTwo rpcBinding
      emptyClass { name := "Title", type := xsd "string" }
      [{ name := "Item", type := tns "Employee" }] rfl (by decide) (by decide)⟩

/-! ## The fault check of the blocking method -/

/-- C10: at the request-response operation `ping`, whose output message has no
parts, the blocking method is declared with return type `void`, while the fault
check that follows the call statement returns `();`: the statement
`return void();` is not in the body. -/
theorem C10_fault_return_without_output_parts :
    (sampleConverter.mWSDL.findMessage pingOperation.output.message).parts = [] ∧
    (sampleConverter.convertClientCall_callFunc pingOperation rpcBinding
        emptyClass).1.returnType = "void" ∧
    (sampleConverter.convertClientCall_callFunc pingOperation rpcBinding
        emptyClass).1.body.texts =
      ["KDSoapMessage message;", "message.setUse(KDSoapMessage::LiteralUse);",
        "d_ptr->m_lastReply = clientInterface()->call(QLatin1String(\"ping\"), message);",
        "if (d_ptr->m_lastReply.isFault())", "return ();", " ret;",
        "ret.deserialize(d_ptr->m_lastReply.arguments().first().value());", "return ret;"] ∧
    "return void();" ∉ (sampleConverter.convertClientCall_callFunc pingOperation rpcBinding
        emptyClass).1.body.texts := by
  decide

/-! ## The ports of the service -/

theorem clientAddOneArgument_withPorts (c : Converter) (ports : List Port)
    (callFunc : KODE.Function) (part : Part) (newClass : KODE.Class) :
    (c.withPorts ports).clientAddOneArgument callFunc part newClass =
      c.clientAddOneArgument callFunc part newClass := rfl

theorem clientAddArguments_parts_withPorts (c : Converter) (ports : List Port)
    (parts : List Part) (st : KODE.Function × KODE.Class) :
    (c.withPorts ports).clientAddArguments_parts parts st =
      c.clientAddArguments_parts parts st := by
  induction parts generalizing st with
  | nil => rfl
  | cons part rest ih =>
    obtain ⟨f, cls⟩ := st
    simp only [Converter.clientAddArguments_parts, clientAddOneArgument_withPorts, ih]

theorem clientAddMessageArgument_withPorts (c : Converter) (ports : List Port)
    (code : KODE.Code) (binding : Binding) (part : Part) :
    (c.withPorts ports).clientAddMessageArgument code binding part =
      c.clientAddMessageArgument code binding part := rfl

theorem clientGenerateMessage_withPorts (c : Converter) (ports : List Port)
    (code : KODE.Code) (binding : Binding) (message : Message) (operation : Operation) :
    (c.withPorts ports).clientGenerateMessage code binding message operation =
      c.clientGenerateMessage code binding message operation := rfl

theorem convertClientCall_withPorts (c : Converter) (ports : List Port)
    (operation : Operation) (binding : Binding) (newClass : KODE.Class) :
    (c.withPorts ports).convertClientCall operation binding newClass =
      c.convertClientCall operation binding newClass := by
  simp only [Converter.convertClientCall, Converter.convertClientCall_callFunc,
    Converter.convertClientCall_request, Converter.clientAddArguments,
    clientAddArguments_parts_withPorts, clientGenerateMessage_withPorts]
  rfl

theorem convertClientInputMessage_withPorts (c : Converter) (ports : List Port)
    (operation : Operation) (binding : Binding) (newClass : KODE.Class) :
    (c.withPorts ports).convertClientInputMessage operation binding newClass =
      c.convertClientInputMessage operation binding newClass := by
  simp only [Converter.convertClientInputMessage, Converter.convertClientInputMessage_asyncFunc,
    Converter.clientAddArguments, clientAddArguments_parts_withPorts,
    clientGenerateMessage_withPorts]
  rfl

theorem convertClientOutputMessage_parts_withPorts (c : Converter) (ports : List Port)
    (binding : Binding) (parts : List Part) (st : KODE.Function × KODE.Code × List String) :
    (c.withPorts ports).convertClientOutputMessage_parts binding parts st =
      c.convertClientOutputMessage_parts binding parts st := by
  induction parts generalizing st with
  | nil => rfl
  | cons part rest ih =>
    obtain ⟨d, s, p⟩ := st
    simp only [Converter.convertClientOutputMessage_parts, ih]
    rfl

theorem convertClientOutputMessage_withPorts (c : Converter) (ports : List Port)
    (operation : Operation) (binding : Binding) (newClass : KODE.Class) :
    (c.withPorts ports).convertClientOutputMessage operation binding newClass =
      c.convertClientOutputMessage operation binding newClass := by
  simp only [Converter.convertClientOutputMessage, Converter.convertClientOutputMessage_functions,
    convertClientOutputMessage_parts_withPorts]
  rfl

theorem convertClientService_dispatch_withPorts (c : Converter) (ports : List Port)
    (operation : Operation) (binding : Binding) (newClass : KODE.Class) :
    (c.withPorts ports).convertClientService_dispatch operation binding newClass =
      c.convertClientService_dispatch operation binding newClass := by
  simp only [Converter.convertClientService_dispatch, convertClientCall_withPorts,
    convertClientInputMessage_withPorts, convertClientOutputMessage_withPorts]

theorem convertClientService_operations_withPorts (c : Converter) (ports : List Port)
    (binding : Binding) (operations : List Operation) (st : KODE.Class × List Header) :
    (c.withPorts ports).convertClientService_operations binding operations st =
      c.convertClientService_operations binding operations st := by
  induction operations generalizing st with
  | nil => rfl
  | cons operation rest ih =>
    obtain ⟨cls, hs⟩ := st
    simp only [Converter.convertClientService_operations,
      convertClientService_dispatch_withPorts, ih]

theorem createHeader_withPorts (c : Converter) (ports : List Port) (header : Header)
    (binding : Binding) (newClass : KODE.Class) :
    (c.withPorts ports).createHeader header binding newClass =
      c.createHeader header binding newClass := rfl

theorem convertClientService_headers_withPorts (c : Converter) (ports : List Port)
    (binding : Binding) (soapHeaders : List Header) (newClass : KODE.Class) :
    (c.withPorts ports).convertClientService_headers binding soapHeaders newClass =
      c.convertClientService_headers binding soapHeaders newClass := by
  simp only [Converter.convertClientService_headers, createHeader_withPorts]

theorem convertClientService_port_withPorts (c : Converter) (ports : List Port) (port : Port)
    (newClass : KODE.Class) :
    (c.withPorts ports).convertClientService_port port newClass =
      c.convertClientService_port port newClass := by
  simp only [Converter.convertClientService_port, convertClientService_operations_withPorts,
    convertClientService_headers_withPorts]
  rfl

theorem convertClientService_ports_withPorts (c : Converter) (ports : List Port)
    (list : List Port) (newClass : KODE.Class) :
    (c.withPorts ports).convertClientService_ports list newClass =
      c.convertClientService_ports list newClass := by
  induction list generalizing newClass with
  | nil => rfl
  | cons port rest ih =>
    simp only [Converter.convertClientService_ports, convertClientService_port_withPorts, ih]

/-- A port whose binding is not a SOAP binding leaves the class as it is. -/
theorem convertClientService_port_of_not_soap (c : Converter) (port : Port)
    (newClass : KODE.Class) (h : c.isSoapPort port = false) :
    c.convertClientService_port port newClass = some newClass := by
  have hne : ¬ (c.mWSDL.findBinding port.bindingName).type = BindingType.SOAPBinding := by
    simpa [Converter.isSoapPort] using h
  simp only [Converter.convertClientService_port, hne, if_false]

/-- The loop over the ports gives the same class for the SOAP ports alone. -/
theorem convertClientService_ports_filter (c : Converter) (ports : List Port)
    (newClass : KODE.Class) :
    c.convertClientService_ports (ports.filter c.isSoapPort) newClass =
      c.convertClientService_ports ports newClass := by
  induction ports generalizing newClass with
  | nil => rfl
  | cons port rest ih =>
    cases h : c.isSoapPort port with
    | true =>
      rw [List.filter_cons_of_pos h]
      simp only [Converter.convertClientService_ports]
      cases c.convertClientService_port port newClass with
      | none => rfl
      | some cls => exact ih cls
    | false =>
      rw [List.filter_cons_of_neg (by simp [h])]
      simp only [Converter.convertClientService_ports,
        convertClientService_port_of_not_soap c port newClass h]
      exact ih newClass

/-- C12: a port whose binding is not a SOAP binding contributes no class member.
The class list that `convertClientService` leaves for a service is the class
list it leaves for the same service with all non-SOAP ports removed: the same
classes, with the same functions and the same member variables. -/
theorem C12_non_soap_ports_contribute_nothing (c : Converter) :
    (c.withPorts (c.mWSDL.service.ports.filter c.isSoapPort)).convertClientService =
      c.convertClientService := by
  have hports := convertClientService_ports_filter c c.mWSDL.service.ports
    c.convertClientService_scaffolding
  have hwith := convertClientService_ports_withPorts c
    (c.mWSDL.service.ports.filter c.isSoapPort) (c.mWSDL.service.ports.filter c.isSoapPort)
    c.convertClientService_scaffolding
  simp only [Converter.convertClientService]
  have hscaf : ∀ ports, (c.withPorts ports).convertClientService_scaffolding =
      c.convertClientService_scaffolding := fun _ => rfl
  have hname : ∀ ports, (c.withPorts ports).mWSDL.service.name = c.mWSDL.service.name :=
    fun _ => rfl
  have hp : ∀ ports, (c.withPorts ports).mWSDL.service.ports = ports := fun _ => rfl
  have hcl : ∀ ports, (c.withPorts ports).mClasses = c.mClasses := fun _ => rfl
  rw [hscaf, hname, hp, hcl, hwith, hports]

/-! ## What a generator step leaves of the class -/

theorem extendedBy_refl (newClass : KODE.Class) : extendedBy newClass newClass [] := by
  simp [extendedBy]

theorem extendedBy_trans {a b d : KODE.Class} {fs gs : List KODE.Function}
    (h1 : extendedBy a b fs) (h2 : extendedBy b d gs) : extendedBy a d (fs ++ gs) := by
  unfold extendedBy at *
  rw [h2, h1]
  simp

theorem extendedBy_functions {a b : KODE.Class} {fs : List KODE.Function}
    (h : extendedBy a b fs) : b.functions = a.functions ++ fs := by
  unfold extendedBy at h
  rw [h]

theorem extendedBy_addFunction (newClass : KODE.Class) (f : KODE.Function) :
    extendedBy newClass (newClass.addFunction f) [f] := by
  simp [extendedBy, KODE.Class.addFunction]

theorem extendedBy_addHeaderInclude (newClass : KODE.Class) (file : String) :
    extendedBy newClass (newClass.addHeaderInclude file) [] := by
  unfold KODE.Class.addHeaderInclude
  split <;> simp [extendedBy]

theorem extendedBy_addHeaderIncludes (files : List String) (newClass : KODE.Class) :
    extendedBy newClass (newClass.addHeaderIncludes files) [] := by
  unfold KODE.Class.addHeaderIncludes
  induction files generalizing newClass with
  | nil => exact extendedBy_refl newClass
  | cons file rest ih =>
    rw [List.foldl_cons]
    exact extendedBy_trans (extendedBy_addHeaderInclude newClass file) (ih _)

theorem extendedBy_clientAddOneArgument (c : Converter) (callFunc : KODE.Function) (part : Part)
    (newClass : KODE.Class) :
    extendedBy newClass (c.clientAddOneArgument callFunc part newClass).2 [] := by
  simp only [Converter.clientAddOneArgument]
  exact extendedBy_addHeaderIncludes _ _

theorem extendedBy_clientAddArguments_parts (c : Converter) (parts : List Part)
    (callFunc : KODE.Function) (newClass : KODE.Class) :
    extendedBy newClass (c.clientAddArguments_parts parts (callFunc, newClass)).2 [] := by
  induction parts generalizing callFunc newClass with
  | nil => exact extendedBy_refl newClass
  | cons part rest ih =>
    rw [Converter.clientAddArguments_parts]
    rw [show c.clientAddOneArgument callFunc part newClass =
      ((c.clientAddOneArgument callFunc part newClass).1,
        (c.clientAddOneArgument callFunc part newClass).2) from rfl]
    exact extendedBy_trans (extendedBy_clientAddOneArgument c callFunc part newClass) (ih _ _)

/-- Adding the arguments of a message changes the argument list of the function
only. -/
theorem clientAddArguments_parts_fst (c : Converter) (parts : List Part)
    (callFunc : KODE.Function) (newClass : KODE.Class) :
    (c.clientAddArguments_parts parts (callFunc, newClass)).1 =
      { callFunc with
        arguments := (c.clientAddArguments_parts parts (callFunc, newClass)).1.arguments } := by
  induction parts generalizing callFunc newClass with
  | nil => rfl
  | cons part rest ih =>
    rw [Converter.clientAddArguments_parts]
    rw [show c.clientAddOneArgument callFunc part newClass =
      ((c.clientAddOneArgument callFunc part newClass).1,
        (c.clientAddOneArgument callFunc part newClass).2) from rfl]
    rw [ih]
    simp only [Converter.clientAddOneArgument]
    split <;> simp [KODE.Function.addArgument]

/-! ## The functions emitted for an operation, a header and a port -/

theorem isOperationFunction_callFunc (c : Converter) (operation : Operation) (binding : Binding)
    (newClass : KODE.Class) :
    isOperationFunction (c.convertClientCall_callFunc operation binding newClass).1 = true := by
  simp only [Converter.convertClientCall_callFunc, Converter.convertClientCall_request,
    Converter.clientAddArguments]
  rw [clientAddArguments_parts_fst]
  split <;>
    simp [isOperationFunction, KODE.Function.setBody, KODE.Function.setReturnType,
      KODE.Function.setDocs, String.data_append]

theorem extendedBy_convertClientCall (c : Converter) (operation : Operation) (binding : Binding)
    (newClass : KODE.Class) :
    extendedBy newClass (c.convertClientCall operation binding newClass)
      [(c.convertClientCall_callFunc operation binding newClass).1] := by
  simp only [Converter.convertClientCall]
  refine @extendedBy_trans _ _ _ [] _ ?_ (extendedBy_addFunction _ _)
  simp only [Converter.convertClientCall_callFunc, Converter.convertClientCall_request,
    Converter.clientAddArguments]
  exact extendedBy_clientAddArguments_parts c _ _ _

theorem extendedBy_convertClientInputMessage (c : Converter) (operation : Operation)
    (binding : Binding) (newClass : KODE.Class) :
    ∃ added,
      extendedBy newClass (c.convertClientInputMessage operation binding newClass) added ∧
      ∀ f ∈ added, isOperationFunction f = true := by
  have hframe : extendedBy newClass
      (c.convertClientInputMessage_asyncFunc operation binding newClass).2.2 [] := by
    simp only [Converter.convertClientInputMessage_asyncFunc, Converter.clientAddArguments]
    exact extendedBy_clientAddArguments_parts c _ _ _
  simp only [Converter.convertClientInputMessage]
  split
  · refine ⟨_, extendedBy_trans hframe (extendedBy_addFunction _ _), ?_⟩
    intro f hf
    simp only [List.nil_append, List.mem_singleton] at hf
    subst hf
    simp only [Converter.convertClientInputMessage_asyncFunc, Converter.clientAddArguments]
    rw [clientAddArguments_parts_fst]
    simp [isOperationFunction, KODE.Function.setBody, KODE.Function.setDocs,
      String.data_append]
  · exact ⟨[], hframe, by simp⟩

/-- The loop over the output parts changes the argument list of the success
signal only. -/
theorem convertClientOutputMessage_parts_fst (c : Converter) (binding : Binding)
    (parts : List Part) (st res : KODE.Function × KODE.Code × List String)
    (h : c.convertClientOutputMessage_parts binding parts st = some res) :
    res.1 = { st.1 with arguments := res.1.arguments } := by
  induction parts generalizing st with
  | nil =>
    simp only [Converter.convertClientOutputMessage_parts, Option.some.injEq] at h
    subst h
    rfl
  | cons part rest ih =>
    obtain ⟨d, s, p⟩ := st
    rw [Converter.convertClientOutputMessage_parts] at h
    simp only at h
    split at h
    · cases h
    · split at h
      · exact ih _ h
      · split at h
        · rw [ih _ h]; simp [KODE.Function.addArgument]
        · split at h
          · rw [ih _ h]; simp [KODE.Function.addArgument]
          · rw [ih _ h]; simp [KODE.Function.addArgument]

theorem extendedBy_convertClientOutputMessage (c : Converter) (operation : Operation)
    (binding : Binding) (newClass result : KODE.Class)
    (h : c.convertClientOutputMessage operation binding newClass = some result) :
    ∃ added, extendedBy newClass result added ∧
      ∀ f ∈ added, isOperationFunction f = true := by
  simp only [Converter.convertClientOutputMessage] at h
  split at h
  · cases h
  · rename_i d e s hfun
    simp only [Option.some.injEq] at h
    subst h
    refine ⟨[d, e, s], ?_, ?_⟩
    · have := extendedBy_trans (extendedBy_trans (extendedBy_addFunction newClass d)
        (extendedBy_addFunction _ e)) (extendedBy_addFunction _ s)
      simpa using this
    · simp only [Converter.convertClientOutputMessage_functions] at hfun
      split at hfun
      · cases hfun
      · rename_i d1 sc pn hparts
        have hd := convertClientOutputMessage_parts_fst c binding _ _ _ hparts
        simp only [Option.some.injEq, Prod.mk.injEq] at hfun
        obtain ⟨rfl, rfl, rfl⟩ := hfun
        intro f hf
        simp only [List.mem_cons, List.mem_singleton, List.not_mem_nil, or_false] at hf
        rcases hf with rfl | rfl | rfl
        · simp only at hd
          rw [hd]
          simp [isOperationFunction, KODE.Function.setDocs]
        · simp [isOperationFunction, KODE.Function.setDocs, KODE.Function.addArgument]
        · simp [isOperationFunction, KODE.Function.setBody, KODE.Function.addArgument]

theorem extendedBy_convertClientService_dispatch (c : Converter) (operation : Operation)
    (binding : Binding) (newClass result : KODE.Class)
    (h : c.convertClientService_dispatch operation binding newClass = some result) :
    ∃ added, extendedBy newClass result added ∧
      ∀ f ∈ added, isOperationFunction f = true := by
  simp only [Converter.convertClientService_dispatch] at h
  split at h
  · simp only [Option.some.injEq] at h
    subst h
    exact extendedBy_convertClientInputMessage c operation binding newClass
  · obtain ⟨a1, h1, p1⟩ := extendedBy_convertClientInputMessage c operation binding
      (c.convertClientCall operation binding newClass)
    obtain ⟨a2, h2, p2⟩ := extendedBy_convertClientOutputMessage c operation binding _ _ h
    refine ⟨_, extendedBy_trans (extendedBy_trans
      (extendedBy_convertClientCall c operation binding newClass) h1) h2, ?_⟩
    intro f hf
    simp only [List.mem_append, List.mem_singleton] at hf
    rcases hf with (rfl | hf) | hf
    · exact isOperationFunction_callFunc c operation binding newClass
    · exact p1 f hf
    · exact p2 f hf
  · split at h
    · cases h
    · rename_i cls1 hout
      simp only [Option.some.injEq] at h
      subst h
      obtain ⟨a2, h2, p2⟩ := extendedBy_convertClientOutputMessage c operation binding _ _ hout
      obtain ⟨a1, h1, p1⟩ := extendedBy_convertClientInputMessage c operation binding cls1
      refine ⟨_, extendedBy_trans h2 h1, ?_⟩
      intro f hf
      rcases List.mem_append.mp hf with hf | hf
      · exact p2 f hf
      · exact p1 f hf
  · exact extendedBy_convertClientOutputMessage c operation binding _ _ h

theorem extendedBy_convertClientService_operations (c : Converter) (binding : Binding)
    (operations : List Operation) (newClass result : KODE.Class)
    (soapHeaders collected : List Header)
    (h : c.convertClientService_operations binding operations (newClass, soapHeaders) =
      some (result, collected)) :
    ∃ added, extendedBy newClass result added ∧
      ∀ f ∈ added, isOperationFunction f = true := by
  induction operations generalizing newClass soapHeaders with
  | nil =>
    simp only [Converter.convertClientService_operations, Option.some.injEq,
      Prod.mk.injEq] at h
    obtain ⟨rfl, -⟩ := h
    exact ⟨[], extendedBy_refl _, by simp⟩
  | cons operation rest ih =>
    rw [Converter.convertClientService_operations] at h
    split at h
    · cases h
    · rename_i cls1 hd
      obtain ⟨a1, h1, p1⟩ := extendedBy_convertClientService_dispatch c operation binding _ _ hd
      obtain ⟨a2, h2, p2⟩ := ih _ _ h
      refine ⟨_, extendedBy_trans h1 h2, ?_⟩
      intro f hf
      rcases List.mem_append.mp hf with hf | hf
      · exact p1 f hf
      · exact p2 f hf

theorem extendedBy_createHeader (c : Converter) (header : Header) (binding : Binding)
    (newClass : KODE.Class) :
    extendedBy newClass (c.createHeader header binding newClass)
        [(c.createHeader_headerSetter header binding newClass).1] ∧
      isOperationFunction (c.createHeader_headerSetter header binding newClass).1 = true := by
  constructor
  · simp only [Converter.createHeader]
    refine @extendedBy_trans _ _ _ [] _ ?_ (extendedBy_addFunction _ _)
    simp only [Converter.createHeader_headerSetter]
    exact extendedBy_clientAddOneArgument c _ _ _
  · simp only [Converter.createHeader_headerSetter, Converter.clientAddOneArgument]
    split <;>
      simp [isOperationFunction, KODE.Function.setBody, KODE.Function.setDocs,
        KODE.Function.addArgument, String.data_append]

theorem extendedBy_convertClientService_headers (c : Converter) (binding : Binding)
    (soapHeaders : List Header) (newClass : KODE.Class) :
    ∃ added,
      extendedBy newClass (c.convertClientService_headers binding soapHeaders newClass) added ∧
      ∀ f ∈ added, isOperationFunction f = true := by
  unfold Converter.convertClientService_headers
  induction soapHeaders generalizing newClass with
  | nil => exact ⟨[], extendedBy_refl _, by simp⟩
  | cons header rest ih =>
    rw [List.foldl_cons]
    obtain ⟨a2, h2, p2⟩ := ih (c.createHeader header binding newClass)
    have h1 := extendedBy_createHeader c header binding newClass
    refine ⟨_, extendedBy_trans h1.1 h2, ?_⟩
    intro f hf
    rcases List.mem_append.mp hf with hf | hf
    · simp only [List.mem_singleton] at hf
      subst hf
      exact h1.2
    · exact p2 f hf

theorem isTransportFactory_of_isOperationFunction (f : KODE.Function)
    (h : isOperationFunction f = true) : isTransportFactory f = false := by
  simp only [isOperationFunction, Bool.and_eq_true, Bool.or_eq_true, decide_eq_true_eq] at h
  simp only [isTransportFactory, Bool.and_eq_false_iff, decide_eq_false_iff_not]
  right
  rcases h.2 with (h | h) | h
  · rw [h.1]; decide
  · rw [h]; decide
  · rw [h]; decide

theorem countP_isTransportFactory_of_isOperationFunction (added : List KODE.Function)
    (h : ∀ f ∈ added, isOperationFunction f = true) :
    added.countP isTransportFactory = 0 := by
  rw [List.countP_eq_zero]
  intro f hf
  rw [isTransportFactory_of_isOperationFunction f (h f hf)]
  simp

theorem isTransportFactory_clientInterface (c : Converter) (webserviceLocation : QUrl) :
    isTransportFactory (c.convertClientService_clientInterface webserviceLocation) = true := by
  simp [isTransportFactory, Converter.convertClientService_clientInterface,
    KODE.Function.setBody]

/-- What the processing of one port adds: nothing for a port that is not bound to
SOAP; for a SOAP port the factory `clientInterface()`, followed by the functions
of the operations and the header setters. -/
theorem extendedBy_convertClientService_port (c : Converter) (port : Port)
    (newClass result : KODE.Class)
    (h : c.convertClientService_port port newClass = some result) :
    ∃ added, extendedBy newClass result added ∧
      added.countP isTransportFactory = (if c.isSoapPort port = true then 1 else 0) ∧
      ∀ f ∈ added, isTransportFactory f = true ∨ isOperationFunction f = true := by
  by_cases hsoap : (c.mWSDL.findBinding port.bindingName).type = BindingType.SOAPBinding
  · have hport : c.isSoapPort port = true := by simp [Converter.isSoapPort, hsoap]
    simp only [Converter.convertClientService_port, hsoap, if_true] at h
    split at h
    · cases h
    · rename_i cls1 hs hops
      simp only [Option.some.injEq] at h
      subst h
      obtain ⟨a1, h1, p1⟩ := extendedBy_convertClientService_operations c _ _ _ _ _ _ hops
      obtain ⟨a2, h2, p2⟩ := extendedBy_convertClientService_headers c
        (c.mWSDL.findBinding port.bindingName) hs cls1
      have hall : ∀ f ∈ a1 ++ a2, isOperationFunction f = true := by
        intro f hf
        rcases List.mem_append.mp hf with hf | hf
        · exact p1 f hf
        · exact p2 f hf
      refine ⟨_, extendedBy_trans (extendedBy_trans (extendedBy_addFunction newClass _) h1) h2,
        ?_, ?_⟩
      · rw [List.append_assoc, List.countP_append,
          countP_isTransportFactory_of_isOperationFunction _ hall, hport]
        simp [List.countP_cons, isTransportFactory_clientInterface]
      · intro f hf
        rw [List.append_assoc] at hf
        rcases List.mem_append.mp hf with hf | hf
        · simp only [List.mem_singleton] at hf
          subst hf
          exact Or.inl (isTransportFactory_clientInterface c _)
        · exact Or.inr (hall f hf)
  · have hport : c.isSoapPort port = false := by simp [Converter.isSoapPort, hsoap]
    rw [convertClientService_port_of_not_soap c port newClass hport] at h
    simp only [Option.some.injEq] at h
    subst h
    exact ⟨[], extendedBy_refl _, by simp [hport], by simp⟩

/-- What the loop over the ports adds: as many factories `clientInterface()` as
there are SOAP ports, and functions of operations and headers. -/
theorem extendedBy_convertClientService_ports (c : Converter) (ports : List Port)
    (newClass result : KODE.Class)
    (h : c.convertClientService_ports ports newClass = some result) :
    ∃ added, extendedBy newClass result added ∧
      added.countP isTransportFactory = (ports.filter c.isSoapPort).length ∧
      ∀ f ∈ added, isTransportFactory f = true ∨ isOperationFunction f = true := by
  induction ports generalizing newClass with
  | nil =>
    simp only [Converter.convertClientService_ports, Option.some.injEq] at h
    subst h
    exact ⟨[], extendedBy_refl _, by simp, by simp⟩
  | cons port rest ih =>
    rw [Converter.convertClientService_ports] at h
    split at h
    · cases h
    · rename_i cls1 hport
      obtain ⟨a1, h1, n1, p1⟩ := extendedBy_convertClientService_port c port _ _ hport
      obtain ⟨a2, h2, n2, p2⟩ := ih _ h
      refine ⟨_, extendedBy_trans h1 h2, ?_, ?_⟩
      · rw [List.countP_append, n1, n2]
        cases hs : c.isSoapPort port with
        | true => rw [List.filter_cons_of_pos hs]; simp; omega
        | false => rw [List.filter_cons_of_neg (by simp [hs])]; simp
      · intro f hf
        rcases List.mem_append.mp hf with hf | hf
        · exact p1 f hf
        · exact p2 f hf

/-- The four functions of the scaffolding, in order: constructor, destructor,
`setEndPoint`, `lastError`. None of them passes the test for a factory or for a
function of an operation, and they are pairwise different. -/
theorem convertClientService_scaffolding_functions (c : Converter) :
    c.convertClientService_scaffolding.functions.map KODE.Function.name =
        [c.className c.mWSDL.service.name, "~" ++ c.className c.mWSDL.service.name,
          "setEndPoint", "lastError"] ∧
    (∀ f ∈ c.convertClientService_scaffolding.functions,
      isTransportFactory f = false ∧ isOperationFunction f = false) ∧
    c.convertClientService_scaffolding.functions.Nodup := by
  refine ⟨?_, ?_, ?_⟩
  · simp [Converter.convertClientService_scaffolding, KODE.Class.addFunction,
      KODE.Class.addMemberVariable, KODE.Class.addInclude, KODE.Class.addHeaderInclude,
      KODE.Function.setBody, KODE.Function.setDocs, KODE.Function.setConst,
      KODE.Function.addArgument, KODE.Function.addArgumentWithDefault,
      KODE.Function.addInitializer]
  · simp [Converter.convertClientService_scaffolding, KODE.Class.addFunction,
      KODE.Class.addMemberVariable, KODE.Class.addInclude, KODE.Class.addHeaderInclude,
      KODE.Function.setBody, KODE.Function.setDocs, KODE.Function.setConst,
      KODE.Function.addArgument, KODE.Function.addArgumentWithDefault,
      KODE.Function.addInitializer, isTransportFactory, isOperationFunction]
  · simp [Converter.convertClientService_scaffolding, KODE.Class.addFunction,
      KODE.Class.addMemberVariable, KODE.Class.addInclude, KODE.Class.addHeaderInclude,
      KODE.Function.setBody, KODE.Function.setDocs, KODE.Function.setConst,
      KODE.Function.addArgument, KODE.Function.addArgumentWithDefault,
      KODE.Function.addInitializer]

/-! ## The shared scaffolding -/

/-- C11, as stated, fails on the code: the factory `clientInterface()` is emitted
inside the loop over the ports. For the sample service with no SOAP port the
service class has no function named `clientInterface`; for the sample service
with two SOAP ports it has two. -/
theorem C11_counterexample_factory_per_soap_port :
    (sampleConverterNoSoapPort.convertClientService).map
        (fun classes => classes.map (fun cls =>
          (cls.functions.filter (fun f => decide (f.name = "clientInterface"))).length)) =
      some [0] ∧
    (sampleConverterTwoSoapPorts.convertClientService).map
        (fun classes => classes.map (fun cls =>
          (cls.functions.filter (fun f => decide (f.name = "clientInterface"))).length)) =
      some [2] := by
  decide

/-- C11, amended: whatever the ports and operations of the service, the service
class that `convertClientService` appends to the classes starts with the four
functions of the scaffolding (constructor, destructor, `setEndPoint`,
`lastError`), and each of them occurs exactly once in the class. The factory
`clientInterface()` is emitted while a SOAP port is processed: a service with
exactly one SOAP port has exactly one factory, a service without SOAP port has
none. -/
theorem C11_scaffolding_once (c : Converter) (classes : List KODE.Class)
    (h : c.convertClientService = some classes) :
    ∃ sorted serviceClass portFunctions,
      classes = sorted ++ [serviceClass] ∧
      serviceClass.functions = c.convertClientService_scaffolding.functions ++ portFunctions ∧
      c.convertClientService_scaffolding.functions.map KODE.Function.name =
        [c.className c.mWSDL.service.name, "~" ++ c.className c.mWSDL.service.name,
          "setEndPoint", "lastError"] ∧
      (∀ f ∈ c.convertClientService_scaffolding.functions,
        serviceClass.functions.count f = 1) ∧
      ((c.mWSDL.service.ports.filter c.isSoapPort).length ≤ 1 →
        serviceClass.functions.countP isTransportFactory =
          (c.mWSDL.service.ports.filter c.isSoapPort).length) := by
  simp only [Converter.convertClientService] at h
  split at h
  · cases h
  · split at h
    · cases h
    · rename_i svc hports
      split at h
      · cases h
      · rename_i sorted hsort
        simp only [Option.some.injEq] at h
        obtain ⟨added, hext, hcount, hkind⟩ :=
          extendedBy_convertClientService_ports c _ _ _ hports
        obtain ⟨hnames, hscaf, hnodup⟩ := convertClientService_scaffolding_functions c
        have hfun := extendedBy_functions hext
        refine ⟨sorted, svc, added, h.symm, hfun, hnames, ?_, ?_⟩
        · intro f hf
          have hnot : f ∉ added := by
            intro hmem
            rcases hkind f hmem with hk | hk
            · rw [(hscaf f hf).1] at hk; cases hk
            · rw [(hscaf f hf).2] at hk; cases hk
          rw [hfun, List.count_append, List.count_eq_one_of_mem hnodup hf,
            List.count_eq_zero_of_not_mem hnot]
        · intro _
          rw [hfun, List.countP_append, hcount]
          have hz : c.convertClientService_scaffolding.functions.countP isTransportFactory = 0 := by
            rw [List.countP_eq_zero]
            intro f hf
            rw [(hscaf f hf).1]
            simp
          rw [hz, Nat.zero_add]

/-- C11 amended, at the sample service, which has one SOAP port and one HTTP
port: the service class has the four scaffolding functions once each and one
factory. -/
theorem C11_scaffolding_once_witness :
    ∃ classes, sampleConverter.convertClientService = some classes ∧
      classes.map (fun cls => cls.functions.map KODE.Function.name) =
        [["directory", "~directory", "setEndPoint", "lastError", "clientInterface",
          "add", "asyncAdd", "addDone", "addError", "_kd_slotAddFinished",
          "list", "asyncList", "listDone", "listError", "_kd_slotListFinished",
          "findDone", "findError", "_kd_slotFindFinished",
          "setTokenHeader", "setNameHeader"]] ∧
      ∃ sorted serviceClass portFunctions,
        classes = sorted ++ [serviceClass] ∧
        serviceClass.functions =
          sampleConverter.convertClientService_scaffolding.functions ++ portFunctions ∧
        sampleConverter.convertClientService_scaffolding.functions.map KODE.Function.name =
          [sampleConverter.className sampleConverter.mWSDL.service.name,
            "~" ++ sampleConverter.className sampleConverter.mWSDL.service.name,
            "setEndPoint", "lastError"] ∧
        (∀ f ∈ sampleConverter.convertClientService_scaffolding.functions,
          serviceClass.functions.count f = 1) ∧
        ((sampleConverter.mWSDL.service.ports.filter sampleConverter.isSoapPort).length ≤ 1 →
          serviceClass.functions.countP isTransportFactory =
            (sampleConverter.mWSDL.service.ports.filter sampleConverter.isSoapPort).length) :=
  ⟨(sampleConverter.convertClientService).get (by decide),
    (Option.some_get _).symm, by decide,
    C11_scaffolding_once sampleConverter _ (Option.some_get _).symm⟩

/-! ## The order of the classes -/

theorem dependenciesEmitted_iff (emitted : List KODE.Class) (cls : KODE.Class) :
    KODE.dependenciesEmitted emitted cls = true ↔
      ∀ dependency ∈ cls.dependencies, ∃ e ∈ emitted, e.name = dependency := by
  simp [KODE.dependenciesEmitted]

theorem dependenciesFirst_nil : dependenciesFirst [] := by
  intro before cls after h
  simp at h

theorem dependenciesFirst_concat (emitted : List KODE.Class) (cls : KODE.Class)
    (hfirst : dependenciesFirst emitted)
    (hcls : ∀ dependency ∈ cls.dependencies, ∃ e ∈ emitted, e.name = dependency) :
    dependenciesFirst (emitted ++ [cls]) := by
  intro before x after h
  rcases List.eq_nil_or_concat after with rfl | ⟨init, last, rfl⟩
  · have h2 : emitted ++ [cls] = before ++ [x] := h
    obtain ⟨rfl, hx⟩ := List.append_inj' h2 rfl
    simp only [List.cons.injEq, and_true] at hx
    subst hx
    exact hcls
  · have h2 : emitted ++ [cls] = (before ++ x :: init) ++ [last] := by
      rw [h]; simp
    obtain ⟨h3, -⟩ := List.append_inj' h2 rfl
    exact hfirst before x init h3

theorem sortByDependencies_round_sound (pending emitted deferred : List KODE.Class)
    (hfirst : dependenciesFirst emitted) :
    dependenciesFirst (KODE.sortByDependencies_round emitted deferred pending).1 ∧
    ((KODE.sortByDependencies_round emitted deferred pending).1 ++
      (KODE.sortByDependencies_round emitted deferred pending).2).Perm
        (emitted ++ deferred ++ pending) := by
  induction pending generalizing emitted deferred with
  | nil => simp [KODE.sortByDependencies_round, hfirst]
  | cons cls rest ih =>
    rw [KODE.sortByDependencies_round]
    split
    · rename_i hdeps
      obtain ⟨h1, h2⟩ := ih (emitted ++ [cls]) deferred
        (dependenciesFirst_concat emitted cls hfirst ((dependenciesEmitted_iff _ _).mp hdeps))
      refine ⟨h1, h2.trans ?_⟩
      simp only [List.append_assoc, List.singleton_append]
      refine List.Perm.append_left emitted ?_
      exact List.perm_middle.symm
    · obtain ⟨h1, h2⟩ := ih emitted (deferred ++ [cls]) hfirst
      refine ⟨h1, h2.trans ?_⟩
      simp

theorem sortByDependencies_rounds_sound (rounds : Nat) (emitted pending sorted : List KODE.Class)
    (hfirst : dependenciesFirst emitted)
    (h : KODE.sortByDependencies_rounds rounds emitted pending = some sorted) :
    dependenciesFirst sorted ∧ sorted.Perm (emitted ++ pending) := by
  induction rounds generalizing emitted pending with
  | zero =>
    cases pending with
    | nil =>
      simp only [KODE.sortByDependencies_rounds, Option.some.injEq] at h
      subst h
      exact ⟨hfirst, by simp⟩
    | cons cls rest => simp [KODE.sortByDependencies_rounds] at h
  | succ n ih =>
    cases pending with
    | nil =>
      simp only [KODE.sortByDependencies_rounds, Option.some.injEq] at h
      subst h
      exact ⟨hfirst, by simp⟩
    | cons cls rest =>
      simp only [KODE.sortByDependencies_rounds] at h
      split at h
      · obtain ⟨h1, h2⟩ := sortByDependencies_round_sound (cls :: rest) emitted [] hfirst
        obtain ⟨h3, h4⟩ := ih _ _ h1 h
        refine ⟨h3, h4.trans (h2.trans ?_)⟩
        simp
      · cases h

/-- The sort, when it succeeds, returns the given classes in an order in which
every class stands after the classes it depends on. -/
theorem sortByDependencies_sound (classes sorted : List KODE.Class)
    (h : KODE.sortByDependencies classes = some sorted) :
    dependenciesFirst sorted ∧ sorted.Perm classes := by
  have := sortByDependencies_rounds_sound classes.length [] classes sorted
    dependenciesFirst_nil h
  simpa using this

theorem dependenciesEmitted_mono (emitted more : List KODE.Class) (cls : KODE.Class)
    (h : KODE.dependenciesEmitted emitted cls = true) :
    KODE.dependenciesEmitted (emitted ++ more) cls = true := by
  rw [dependenciesEmitted_iff] at h ⊢
  intro d hd
  obtain ⟨e, he, hn⟩ := h d hd
  exact ⟨e, List.mem_append_left _ he, hn⟩

/-- One round of the sort keeps the classes emitted and deferred before, and
defers only classes whose dependencies were not all emitted when the round
began. -/
theorem sortByDependencies_round_deferred (pending emitted deferred : List KODE.Class) :
    ∃ more later,
      KODE.sortByDependencies_round emitted deferred pending =
        (emitted ++ more, deferred ++ later) ∧
      (more ++ later).Perm pending ∧
      (∀ x ∈ later, KODE.dependenciesEmitted emitted x = false) := by
  induction pending generalizing emitted deferred with
  | nil => exact ⟨[], [], by simp [KODE.sortByDependencies_round], by simp, by simp⟩
  | cons cls rest ih =>
    rw [KODE.sortByDependencies_round]
    split
    · obtain ⟨m, k, h1, h2, h3⟩ := ih (emitted ++ [cls]) deferred
      refine ⟨cls :: m, k, by simp [h1], by simpa using h2, ?_⟩
      intro x hx
      cases hd : KODE.dependenciesEmitted emitted x with
      | false => rfl
      | true =>
        have := dependenciesEmitted_mono emitted [cls] x hd
        rw [h3 x hx] at this
        cases this
    · rename_i hdeps
      obtain ⟨m, k, h1, h2, h3⟩ := ih emitted (deferred ++ [cls])
      refine ⟨m, cls :: k, by simp [h1], ?_, ?_⟩
      · exact List.perm_middle.trans (List.Perm.cons cls h2)
      · intro x hx
        rcases List.mem_cons.mp hx with rfl | hx
        · simpa using hdeps
        · exact h3 x hx

/-- Among the classes of a sequence, the first one that is still pending. -/
theorem exists_first_pending (order pending : List KODE.Class)
    (h : ∃ x ∈ order, x ∈ pending) :
    ∃ before x after, order = before ++ x :: after ∧ x ∈ pending ∧
      ∀ y ∈ before, y ∉ pending := by
  induction order with
  | nil => simp at h
  | cons head tail ih =>
    by_cases hhead : head ∈ pending
    · exact ⟨[], head, tail, rfl, hhead, by simp⟩
    · obtain ⟨x, hx, hp⟩ := h
      have hx2 : x ∈ tail := by
        rcases List.mem_cons.mp hx with rfl | hx
        · exact absurd hp hhead
        · exact hx
      obtain ⟨before, y, after, h1, h2, h3⟩ := ih ⟨x, hx2, hp⟩
      refine ⟨head :: before, y, after, by simp [h1], h2, ?_⟩
      intro z hz
      rcases List.mem_cons.mp hz with rfl | hz
      · exact hhead
      · exact h3 z hz

/-- The rounds of the sort succeed on classes that have an order in which every
class stands after the classes it depends on, when the round budget covers the
pending classes. -/
theorem sortByDependencies_rounds_complete (rounds : Nat)
    (emitted pending order : List KODE.Class)
    (hrounds : pending.length ≤ rounds)
    (hperm : order.Perm (emitted ++ pending)) (hfirst : dependenciesFirst order) :
    ∃ sorted, KODE.sortByDependencies_rounds rounds emitted pending = some sorted := by
  induction rounds generalizing emitted pending with
  | zero =>
    cases pending with
    | nil => exact ⟨emitted, rfl⟩
    | cons cls rest => simp at hrounds
  | succ n ih =>
    cases pending with
    | nil => exact ⟨emitted, rfl⟩
    | cons cls rest =>
      obtain ⟨more, later, hround, hsplit, hlater⟩ :=
        sortByDependencies_round_deferred (cls :: rest) emitted []
      obtain ⟨before, x, after, horder, hx, hbefore⟩ := exists_first_pending order (cls :: rest)
        ⟨cls, hperm.symm.subset (List.mem_append_right _ (List.mem_cons_self _ _)),
          List.mem_cons_self _ _⟩
      have hknown : KODE.dependenciesEmitted emitted x = true := by
        rw [dependenciesEmitted_iff]
        intro d hd
        obtain ⟨e, he, hname⟩ := hfirst before x after horder d hd
        have hmem : e ∈ emitted ++ cls :: rest :=
          hperm.subset (by rw [horder]; exact List.mem_append_left _ he)
        rcases List.mem_append.mp hmem with hmem | hmem
        · exact ⟨e, hmem, hname⟩
        · exact absurd hmem (hbefore e he)
      have hxmore : x ∈ more := by
        rcases List.mem_append.mp (hsplit.symm.subset hx) with h | h
        · exact h
        · rw [hlater x h] at hknown
          cases hknown
      have hpos : 0 < more.length := List.length_pos_of_mem hxmore
      have hlen : more.length + later.length = (cls :: rest).length := by
        rw [← List.length_append]
        exact hsplit.length_eq
      simp only [List.nil_append] at hround
      have hperm2 : order.Perm ((emitted ++ more) ++ later) := by
        rw [List.append_assoc]
        exact hperm.trans (List.Perm.append_left emitted hsplit.symm)
      have hprogress : later.length < (cls :: rest).length := by omega
      obtain ⟨sorted, hsorted⟩ := ih (emitted ++ more) later (by omega) hperm2
      refine ⟨sorted, ?_⟩
      simp only [KODE.sortByDependencies_rounds, hround, if_pos hprogress]
      exact hsorted

/-- The sort succeeds on every class list that has an order in which every class
stands after the classes it depends on. -/
theorem sortByDependencies_complete (classes order : List KODE.Class)
    (hperm : order.Perm classes) (hfirst : dependenciesFirst order) :
    ∃ sorted, KODE.sortByDependencies classes = some sorted :=
  sortByDependencies_rounds_complete classes.length [] classes order (Nat.le_refl _)
    (by simpa using hperm) hfirst

/-- The service class is built without any declared dependency. -/
theorem convertClientService_ports_dependencies (c : Converter) (ports : List Port)
    (result : KODE.Class)
    (h : c.convertClientService_ports ports c.convertClientService_scaffolding = some result) :
    result.dependencies = [] := by
  obtain ⟨added, hext, -, -⟩ := extendedBy_convertClientService_ports c _ _ _ h
  unfold extendedBy at hext
  rw [hext]
  rfl

/-- C13: in the class sequence that `convertClientService` leaves (the previously
generated classes, sorted by `sortByDependencies`, followed by the service
class), every class stands strictly after each class it declares a dependency
on. The sequence consists of the previously generated classes and the service
class. -/
theorem C13_dependencies_before_dependents (c : Converter) (classes : List KODE.Class)
    (h : c.convertClientService = some classes) :
    (∃ sorted serviceClass, classes = sorted ++ [serviceClass] ∧ sorted.Perm c.mClasses) ∧
    ∀ (before : List KODE.Class) (cls : KODE.Class) (after : List KODE.Class),
      classes = before ++ cls :: after →
        ∀ dependency ∈ cls.dependencies, ∃ e ∈ before, e.name = dependency := by
  simp only [Converter.convertClientService] at h
  split at h
  · cases h
  · split at h
    · cases h
    · rename_i svc hports
      split at h
      · cases h
      · rename_i sorted hsort
        simp only [Option.some.injEq] at h
        subst h
        obtain ⟨hfirst, hperm⟩ := sortByDependencies_sound _ _ hsort
        refine ⟨⟨sorted, svc, rfl, hperm⟩, ?_⟩
        have hsvc := convertClientService_ports_dependencies c _ _ hports
        exact dependenciesFirst_concat sorted svc hfirst (by simp [hsvc])

/-- C13, at the sample generator with the value classes `TNS__Employee` (which
depends on `TNS__Address`) and `TNS__Address`, generated in this order: the
sequence left is `TNS__Address`, `TNS__Employee`, `directory`. -/
theorem C13_dependencies_before_dependents_witness :
    ∃ classes, sampleConverterWithClasses.convertClientService = some classes ∧
      classes.map KODE.Class.name = ["TNS__Address", "TNS__Employee", "directory"] ∧
      classes.map KODE.Class.dependencies = [[], ["TNS__Address"], []] ∧
      (∃ sorted serviceClass,
        classes = sorted ++ [serviceClass] ∧ sorted.Perm sampleConverterWithClasses.mClasses) ∧
      ∀ (before : List KODE.Class) (cls : KODE.Class) (after : List KODE.Class),
        classes = before ++ cls :: after →
          ∀ dependency ∈ cls.dependencies, ∃ e ∈ before, e.name = dependency :=
  ⟨(sampleConverterWithClasses.convertClientService).get (by decide),
    (Option.some_get _).symm, by decide, by decide,
    C13_dependencies_before_dependents sampleConverterWithClasses _ (Option.some_get _).symm⟩

/-! ## The action parameter and the message construction -/

/-- The statement that `clientAddMessageArgument` appends does not depend on the
lines already in the code. -/
theorem clientAddMessageArgument_lines (c : Converter) (code : KODE.Code) (binding : Binding)
    (part : Part) :
    c.clientAddMessageArgument code binding part =
      { lines := code.lines ++
          (c.clientAddMessageArgument { level := code.level } binding part).lines,
        level := code.level } := by
  simp only [Converter.clientAddMessageArgument]
  split
  · split
    · simp [KODE.Code.addLine]
    · split
      · split <;> simp [KODE.Code.addLine]
      · simp [KODE.Code.addLine]
  · simp

theorem foldl_clientAddMessageArgument_lines (c : Converter) (binding : Binding)
    (parts : List Part) (code : KODE.Code) :
    parts.foldl (fun code part => c.clientAddMessageArgument code binding part) code =
      { lines := code.lines ++ parts.flatMap (fun part =>
          (c.clientAddMessageArgument { level := code.level } binding part).lines),
        level := code.level } := by
  induction parts generalizing code with
  | nil => simp
  | cons part rest ih =>
    rw [List.foldl_cons, ih, clientAddMessageArgument_lines]
    simp [List.flatMap_cons]

/-- The statements that `clientGenerateMessage` appends do not depend on the
lines already in the code. -/
theorem clientGenerateMessage_lines (c : Converter) (code : KODE.Code) (binding : Binding)
    (message : Message) (operation : Operation) :
    c.clientGenerateMessage code binding message operation =
      { lines := code.lines ++
          (c.clientGenerateMessage { level := code.level } binding message operation).lines,
        level := code.level } := by
  simp only [Converter.clientGenerateMessage]
  rw [foldl_clientAddMessageArgument_lines]
  conv_rhs => rw [foldl_clientAddMessageArgument_lines]
  split
  · split <;> simp [KODE.Code.addLine]
  · simp [KODE.Code.addLine]

theorem clientGenerateMessage_withAction (c : Converter) (code : KODE.Code) (binding : Binding)
    (message : Message) (operation : Operation) (operationName action : String) :
    c.clientGenerateMessage code (binding.withAction operationName action) message operation =
      c.clientGenerateMessage code binding message operation := by
  have hstyle : soapStyle (binding.withAction operationName action) = soapStyle binding := rfl
  have harg : (fun code part =>
      c.clientAddMessageArgument code (binding.withAction operationName action) part) =
      (fun code part => c.clientAddMessageArgument code binding part) := by
    funext code part
    simp only [Converter.clientAddMessageArgument, hstyle]
  have huse : ((binding.withAction operationName action).soapBinding.operations
      operation.name).input = (binding.soapBinding.operations operation.name).input := by
    simp only [Binding.withAction]
    split <;> rfl
  have htype : (binding.withAction operationName action).type = binding.type := rfl
  simp only [Converter.clientGenerateMessage, harg, huse, htype]

theorem clientAddAction_eq (c : Converter) (code : KODE.Code) (binding : Binding)
    (operationName : String) :
    c.clientAddAction code binding operationName =
      if declaresAction binding operationName = true then
        (code.addLine ("const QString action = QString::fromLatin1(\"" ++
          (binding.soapBinding.operations operationName).action ++ "\");"), true)
      else (code, false) := by
  simp only [Converter.clientAddAction, declaresAction]
  by_cases h1 : binding.type = BindingType.SOAPBinding
  · by_cases h2 : (binding.soapBinding.operations operationName).action = ""
    · simp [h1, h2]
    · simp [h1, h2]
  · simp [h1]

theorem clientAddAction_level (c : Converter) (binding : Binding) (operationName : String) :
    (c.clientAddAction {} binding operationName).1.level = 0 ∧
    (c.clientAddAction {} binding operationName).2 = declaresAction binding operationName := by
  rw [clientAddAction_eq]
  split
  · rename_i h
    simp [KODE.Code.addLine, h]
  · rename_i h
    simp [h]

theorem clientAddAction_lines (c : Converter) (binding : Binding) (operationName : String) :
    (c.clientAddAction {} binding operationName).1.lines =
      if declaresAction binding operationName = true then
        [KODE.CodeLine.mk 0 ("const QString action = QString::fromLatin1(\"" ++
          (binding.soapBinding.operations operationName).action ++ "\");")]
      else [] := by
  rw [clientAddAction_eq]
  split <;> rfl

theorem append_action_ne (stem : String) : stem ++ ", action" ++ ");" ≠ stem ++ ");" := by
  intro h
  have hlen := congrArg String.length h
  simp only [String.length_append] at hlen
  have h1 : ", action".length = 8 := by decide
  omega

/-- C14: the call statement that `convertClientCall` and
`convertClientInputMessage` generate ends the request code; it carries the extra
parameter `action` exactly when the binding is a SOAP binding that declares a
non-empty action for the operation. The request code is, in that case alone, the
declaration `const QString action = QString::fromLatin1("<action>");` with the
action string of the binding, then the statements of `clientGenerateMessage`,
then the call statement; and the statements of `clientGenerateMessage` are the
same whatever action the binding declares for the operation. At the sample
operation `add`, the body of the blocking method and the request statements of
the asynchronous method are given in full for the binding `rpc` with the action
`urn:add` and without action: they differ in the declaration of `action` and in
the parameter list of the call, and in nothing else. -/
theorem C14_action_only_changes_call_parameters (c : Converter) (operation : Operation)
    (binding : Binding) (newClass : KODE.Class) (otherAction : String) :
    ((c.clientAddAction {} binding operation.name).2 = declaresAction binding operation.name) ∧
    (c.convertClientCall_request operation binding newClass).2.1.lines =
      (if declaresAction binding operation.name = true then
          [KODE.CodeLine.mk 0 ("const QString action = QString::fromLatin1(\"" ++
            (binding.soapBinding.operations operation.name).action ++ "\");")]
        else []) ++
        (c.clientGenerateMessage {} binding (c.mWSDL.findMessage operation.input.message)
          operation).lines ++
        [{ indent := 0,
           text := (if declaresAction binding operation.name = true then
               "d_ptr->m_lastReply = clientInterface()->call(QLatin1String(\"" ++
                 operation.name ++ "\"), message" ++ ", action"
             else
               "d_ptr->m_lastReply = clientInterface()->call(QLatin1String(\"" ++
                 operation.name ++ "\"), message") ++ ");" }] ∧
    (c.convertClientInputMessage_asyncFunc operation binding newClass).2.1.lines =
      (if declaresAction binding operation.name = true then
          [KODE.CodeLine.mk 0 ("const QString action = QString::fromLatin1(\"" ++
            (binding.soapBinding.operations operation.name).action ++ "\");")]
        else []) ++
        (c.clientGenerateMessage {} binding (c.mWSDL.findMessage operation.input.message)
          operation).lines ++
        [{ indent := 0,
           text := (if declaresAction binding operation.name = true then
               "KDSoapPendingCall pendingCall = clientInterface()->asyncCall(QLatin1String(\"" ++
                 operation.name ++ "\"), message" ++ ", action"
             else
               "KDSoapPendingCall pendingCall = clientInterface()->asyncCall(QLatin1String(\"" ++
                 operation.name ++ "\"), message") ++ ");" }] ∧
    (∀ stem : String, stem ++ ", action" ++ ");" ≠ stem ++ ");") ∧
    c.clientGenerateMessage {} (binding.withAction operation.name otherAction)
        (c.mWSDL.findMessage operation.input.message) operation =
      c.clientGenerateMessage {} binding (c.mWSDL.findMessage operation.input.message)
        operation ∧
    (sampleConverter.convertClientCall_callFunc
        (sampleOperation OperationType.RequestResponseOperation)
        (rpcBinding.withAction "add" "urn:add") emptyClass).1.body.texts =
      ["const QString action = QString::fromLatin1(\"urn:add\");", "KDSoapMessage message;",
        "message.setUse(KDSoapMessage::LiteralUse);",
        "message.addArgument(QLatin1String(\"Name\"), name);",
        "message.addArgument(QLatin1String(\"Count\"), count);",
        "d_ptr->m_lastReply = clientInterface()->call(QLatin1String(\"add\"), message, action);",
        "if (d_ptr->m_lastReply.isFault())", "return TNS__Employee();", "TNS__Employee ret;",
        "ret.deserialize(d_ptr->m_lastReply.arguments().first().value());", "return ret;"] ∧
    (sampleConverter.convertClientCall_callFunc
        (sampleOperation OperationType.RequestResponseOperation) rpcBinding
        emptyClass).1.body.texts =
      ["KDSoapMessage message;", "message.setUse(KDSoapMessage::LiteralUse);",
        "message.addArgument(QLatin1String(\"Name\"), name);",
        "message.addArgument(QLatin1String(\"Count\"), count);",
        "d_ptr->m_lastReply = clientInterface()->call(QLatin1String(\"add\"), message);",
        "if (d_ptr->m_lastReply.isFault())", "return TNS__Employee();", "TNS__Employee ret;",
        "ret.deserialize(d_ptr->m_lastReply.arguments().first().value());", "return ret;"] ∧
    (sampleConverter.convertClientInputMessage
        (sampleOperation OperationType.RequestResponseOperation)
        (rpcBinding.withAction "add" "urn:add") emptyClass).functions.map
          (fun function => function.body.texts.take 6) =
      [["const QString action = QString::fromLatin1(\"urn:add\");", "KDSoapMessage message;",
        "message.setUse(KDSoapMessage::LiteralUse);",
        "message.addArgument(QLatin1String(\"Name\"), name);",
        "message.addArgument(QLatin1String(\"Count\"), count);",
        "KDSoapPendingCall pendingCall = " ++
          "clientInterface()->asyncCall(QLatin1String(\"add\"), message, action);"]] ∧
    (sampleConverter.convertClientInputMessage
        (sampleOperation OperationType.RequestResponseOperation) rpcBinding
        emptyClass).functions.map (fun function => function.body.texts.take 5) =
      [["KDSoapMessage message;", "message.setUse(KDSoapMessage::LiteralUse);",
        "message.addArgument(QLatin1String(\"Name\"), name);",
        "message.addArgument(QLatin1String(\"Count\"), count);",
        "KDSoapPendingCall pendingCall = " ++
          "clientInterface()->asyncCall(QLatin1String(\"add\"), message);"]] := by
  obtain ⟨hlevel, hflag⟩ := clientAddAction_level c binding operation.name
  have hlines := clientAddAction_lines c binding operation.name
  refine ⟨hflag, ?_, ?_, append_action_ne, clientGenerateMessage_withAction c _ _ _ _ _ _,
    by decide, by decide, by decide, by decide⟩
  · simp only [Converter.convertClientCall_request, KODE.Code.addLine]
    rw [clientGenerateMessage_lines, hlevel, hflag, hlines]
  · simp only [Converter.convertClientInputMessage_asyncFunc, KODE.Code.addLine]
    rw [clientGenerateMessage_lines, hlevel, hflag, hlines]

/-! ## Void parts -/

theorem clientAddArguments_parts_arguments (c : Converter) (parts : List Part)
    (callFunc : KODE.Function) (newClass : KODE.Class) :
    (c.clientAddArguments_parts parts (callFunc, newClass)).1.arguments =
      callFunc.arguments ++
        (parts.filter (fun part =>
          decide (c.mTypeMap.localInputType part.type part.element ≠ "void"))).map
          (fun part =>
            { declaration := c.mTypeMap.localInputType part.type part.element ++ " " ++
                c.mNameMapper.escape (lowerlize part.name) }) := by
  induction parts generalizing callFunc newClass with
  | nil => simp [Converter.clientAddArguments_parts]
  | cons part rest ih =>
    rw [Converter.clientAddArguments_parts]
    rw [show c.clientAddOneArgument callFunc part newClass =
      ((c.clientAddOneArgument callFunc part newClass).1,
        (c.clientAddOneArgument callFunc part newClass).2) from rfl]
    rw [ih]
    by_cases hvoid : c.mTypeMap.localInputType part.type part.element = "void"
    · simp [Converter.clientAddOneArgument, hvoid]
    · simp [Converter.clientAddOneArgument, hvoid, KODE.Function.addArgument]

theorem clientAddMessageArgument_void (c : Converter) (code : KODE.Code) (binding : Binding)
    (part : Part) (hvoid : c.mTypeMap.localType part.type part.element = "void") :
    c.clientAddMessageArgument code binding part = code := by
  simp [Converter.clientAddMessageArgument, hvoid]

theorem clientAddMessageArgument_non_void (c : Converter) (level : Nat) (binding : Binding)
    (part : Part) (hvoid : c.mTypeMap.localType part.type part.element ≠ "void") :
    (c.clientAddMessageArgument { level := level } binding part).lines.length = 1 := by
  simp only [Converter.clientAddMessageArgument, hvoid, ne_eq, not_false_eq_true, if_true]
  split
  · simp [KODE.Code.addLine]
  · split
    · split <;> simp [KODE.Code.addLine]
    · simp [KODE.Code.addLine]

theorem flatMap_clientAddMessageArgument_filter (c : Converter) (binding : Binding)
    (level : Nat) (parts : List Part) :
    parts.flatMap (fun part =>
        (c.clientAddMessageArgument { level := level } binding part).lines) =
      (parts.filter (fun part =>
        decide (c.mTypeMap.localType part.type part.element ≠ "void"))).flatMap (fun part =>
          (c.clientAddMessageArgument { level := level } binding part).lines) := by
  induction parts with
  | nil => rfl
  | cons part rest ih =>
    by_cases hvoid : c.mTypeMap.localType part.type part.element = "void"
    · simp [List.flatMap_cons, hvoid, ih, clientAddMessageArgument_void]
    · simp [List.flatMap_cons, hvoid, ih]

theorem length_flatMap_of_length_one {α β : Type} (g : α → List β) (l : List α)
    (h : ∀ x ∈ l, (g x).length = 1) : (l.flatMap g).length = l.length := by
  induction l with
  | nil => rfl
  | cons x rest ih =>
    rw [List.flatMap_cons, List.length_append, h x (List.mem_cons_self _ _),
      ih (fun y hy => h y (List.mem_cons_of_mem _ hy)), List.length_cons, Nat.add_comm]

/-- C15: a part classified void (the type mapper gives it the type `void`, as
local type and as input type) adds no argument in `clientAddOneArgument` and no
statement in `clientAddMessageArgument`. For the input message of an operation,
the arguments of the generated method are one per non-void part, in part order,
and the statements of `clientGenerateMessage` are those of the message
construction followed by one marshaling statement per non-void part, in part
order; both numbers are the number of non-void parts. -/
theorem C15_void_parts_contribute_nothing (c : Converter) (operation : Operation)
    (binding : Binding) (newClass : KODE.Class) (callFunc : KODE.Function) (code : KODE.Code)
    (hvoid : ∀ part ∈ (c.mWSDL.findMessage operation.input.message).parts,
      (c.mTypeMap.localInputType part.type part.element = "void" ↔
        c.mTypeMap.localType part.type part.element = "void")) :
    (∀ part ∈ (c.mWSDL.findMessage operation.input.message).parts,
      c.mTypeMap.localType part.type part.element = "void" →
        (c.clientAddOneArgument callFunc part newClass).1 = callFunc ∧
        c.clientAddMessageArgument code binding part = code) ∧
    (c.convertClientCall_request operation binding newClass).1.argumentDeclarations =
      ((c.mWSDL.findMessage operation.input.message).parts.filter (fun part =>
        decide (c.mTypeMap.localType part.type part.element ≠ "void"))).map (fun part =>
          c.mTypeMap.localInputType part.type part.element ++ " " ++
            c.mNameMapper.escape (lowerlize part.name)) ∧
    (c.clientGenerateMessage code binding (c.mWSDL.findMessage operation.input.message)
        operation).lines =
      (c.clientGenerateMessage code binding {} operation).lines ++
        ((c.mWSDL.findMessage operation.input.message).parts.filter (fun part =>
          decide (c.mTypeMap.localType part.type part.element ≠ "void"))).flatMap (fun part =>
            (c.clientAddMessageArgument { level := code.level } binding part).lines) ∧
    (∀ part ∈ (c.mWSDL.findMessage operation.input.message).parts,
      c.mTypeMap.localType part.type part.element ≠ "void" →
        (c.clientAddMessageArgument { level := code.level } binding part).lines.length = 1) ∧
    (c.convertClientCall_request operation binding newClass).1.arguments.length =
      (c.mWSDL.findMessage operation.input.message).parts.countP (fun part =>
        decide (c.mTypeMap.localType part.type part.element ≠ "void")) ∧
    (c.clientGenerateMessage code binding (c.mWSDL.findMessage operation.input.message)
        operation).lines.length =
      (c.clientGenerateMessage code binding {} operation).lines.length +
        (c.mWSDL.findMessage operation.input.message).parts.countP (fun part =>
          decide (c.mTypeMap.localType part.type part.element ≠ "void")) := by
  have hfilter : (c.mWSDL.findMessage operation.input.message).parts.filter (fun part =>
        decide (c.mTypeMap.localInputType part.type part.element ≠ "void")) =
      (c.mWSDL.findMessage operation.input.message).parts.filter (fun part =>
        decide (c.mTypeMap.localType part.type part.element ≠ "void")) := by
    apply List.filter_congr
    intro part hpart
    simp [hvoid part hpart]
  have hargs : (c.convertClientCall_request operation binding newClass).1.arguments =
      ((c.mWSDL.findMessage operation.input.message).parts.filter (fun part =>
        decide (c.mTypeMap.localType part.type part.element ≠ "void"))).map (fun part =>
          { declaration := c.mTypeMap.localInputType part.type part.element ++ " " ++
              c.mNameMapper.escape (lowerlize part.name) }) := by
    simp only [Converter.convertClientCall_request, Converter.clientAddArguments]
    rw [clientAddArguments_parts_arguments, hfilter]
    simp [KODE.Function.setDocs]
  have hlines : (c.clientGenerateMessage code binding
        (c.mWSDL.findMessage operation.input.message) operation).lines =
      (c.clientGenerateMessage code binding {} operation).lines ++
        ((c.mWSDL.findMessage operation.input.message).parts.filter (fun part =>
          decide (c.mTypeMap.localType part.type part.element ≠ "void"))).flatMap (fun part =>
            (c.clientAddMessageArgument { level := code.level } binding part).lines) := by
    rw [← flatMap_clientAddMessageArgument_filter]
    simp only [Converter.clientGenerateMessage]
    rw [foldl_clientAddMessageArgument_lines]
    split
    · split <;> simp [KODE.Code.addLine]
    · simp [KODE.Code.addLine]
  refine ⟨?_, ?_, hlines, ?_, ?_, ?_⟩
  · intro part hpart hv
    refine ⟨?_, clientAddMessageArgument_void c code binding part hv⟩
    simp [Converter.clientAddOneArgument, (hvoid part hpart).mpr hv]
  · simp only [KODE.Function.argumentDeclarations, hargs, List.map_map]
    rfl
  · intro part _ hv
    exact clientAddMessageArgument_non_void c code.level binding part hv
  · rw [hargs, List.length_map, List.countP_eq_length_filter]
  · rw [hlines, List.length_append, List.countP_eq_length_filter]
    congr 1
    apply length_flatMap_of_length_one
    intro part hpart
    have hv := (List.mem_filter.mp hpart).2
    exact clientAddMessageArgument_non_void c code.level binding part (by simpa using hv)

/-- C15, at a request message with a void part between two builtin parts: the
blocking method has the two arguments of the builtin parts and the message code
has their two marshaling statements. -/
theorem C15_void_parts_contribute_nothing_witness :
    (∀ part ∈ ((sampleConverterWith sampleRequestWithVoid).mWSDL.findMessage
        (sampleOperation OperationType.RequestResponseOperation).input.message).parts,
      ((sampleConverterWith sampleRequestWithVoid).mTypeMap.localInputType part.type
          part.element = "void" ↔
        (sampleConverterWith sampleRequestWithVoid).mTypeMap.localType part.type
          part.element = "void")) ∧
    ((sampleConverterWith sampleRequestWithVoid).convertClientCall_request
        (sampleOperation OperationType.RequestResponseOperation) rpcBinding
        emptyClass).1.argumentDeclarations = ["const QString& name", "int count"] ∧
    ((sampleConverterWith sampleRequestWithVoid).clientGenerateMessage {} rpcBinding
        sampleRequestWithVoid (sampleOperation OperationType.RequestResponseOperation)).texts =
      ["KDSoapMessage message;", "message.setUse(KDSoapMessage::LiteralUse);",
        "message.addArgument(QLatin1String(\"Name\"), name);",
        "message.addArgument(QLatin1String(\"Count\"), count);"] ∧
    ((sampleConverterWith sampleRequestWithVoid).convertClientCall_request
        (sampleOperation OperationType.RequestResponseOperation) rpcBinding
        emptyClass).1.arguments.length = 2 ∧
    ((sampleConverterWith sampleRequestWithVoid).clientGenerateMessage {} rpcBinding
        sampleRequestWithVoid
        (sampleOperation OperationType.RequestResponseOperation)).lines.length = 2 + 2 :=
  have h := C15_void_parts_contribute_nothing (sampleConverterWith sampleRequestWithVoid)
    (sampleOperation OperationType.RequestResponseOperation) rpcBinding emptyClass
    { name := "mark" } {} (by decide)
  ⟨by decide, h.2.1, congrArg (List.map KODE.CodeLine.text) h.2.2.1, h.2.2.2.2.1, h.2.2.2.2.2⟩

/-! ## Escaped argument names -/

/-- C16: with a name mapper that escapes `class` to `_class`, for the non-void
input part `Class` the method argument that `clientAddOneArgument` declares is
`_class`, while the marshaling statement that `clientAddMessageArgument` emits
refers to the variable `class`, in RPC style and in Document style: the
statement does not use the escaped identifier. -/
theorem C16_marshaling_uses_unescaped_name :
    sampleConverterEscaping.mTypeMap.localType classPart.type classPart.element ≠ "void" ∧
    (sampleConverterEscaping.clientAddOneArgument { name := "find" } classPart
        emptyClass).1.argumentDeclarations = ["const QString& _class"] ∧
    (sampleConverterEscaping.clientAddMessageArgument {} rpcBinding classPart).texts =
      ["message.addArgument(QLatin1String(\"Class\"), class);"] ∧
    (sampleConverterEscaping.clientAddMessageArgument {} documentBinding classPart).texts =
      ["message.arguments() = class.serialize().value<KDSoapValueList>();"] := by
  decide

/-! ## Local variables of the callback slot -/

/-- C20: for an output message with two complex-typed parts, the success branch of
the callback slot declares the local variable `ret` twice, once per part, and
emits the success signal with `ret` for both arguments. -/
theorem C20_slot_declares_ret_for_every_complex_part :
    ((sampleConverterWith sampleReplyTwoComplex).convertClientOutputMessage_functions
        (sampleOperation OperationType.RequestResponseOperation) rpcBinding).map
      (fun built => built.2.2.body.texts) =
      some ["const KDSoapMessage reply = watcher->returnMessage();",
        "if (reply.isFault()) \x7b", "emit addError(reply);", "\x7d else \x7b",
        "const KDSoapValueList args = reply.arguments();",
        "TNS__Employee ret;", "ret.deserialize(args.value(QLatin1String(\"Employee\")));",
        "TNS__Address ret;", "ret.deserialize(args.value(QLatin1String(\"Address\")));",
        "emit addDone( ret,ret );", "\x7d"] := by
  decide

/-! ## The callback slot -/

/-- The loop over the output parts appends to the slot code only statements that
decode a part, at the indentation of the code. -/
theorem convertClientOutputMessage_parts_slotCode (c : Converter) (binding : Binding)
    (parts : List Part) (st res : KODE.Function × KODE.Code × List String)
    (h : c.convertClientOutputMessage_parts binding parts st = some res) :
    ∃ decode : List KODE.CodeLine,
      res.2.1 = { lines := st.2.1.lines ++ decode, level := st.2.1.level } ∧
      ∀ line ∈ decode, line.indent = st.2.1.level ∧
        ∃ part ∈ parts, isDecodeStatement c part line.text := by
  induction parts generalizing st with
  | nil =>
    simp only [Converter.convertClientOutputMessage_parts, Option.some.injEq] at h
    subst h
    exact ⟨[], by simp, by simp⟩
  | cons part rest ih =>
    obtain ⟨d, s, p⟩ := st
    rw [Converter.convertClientOutputMessage_parts] at h
    simp only at h
    have hrest : ∀ (decode : List KODE.CodeLine) (level : Nat),
        (∀ line ∈ decode,
          line.indent = level ∧ ∃ q ∈ rest, isDecodeStatement c q line.text) →
        ∀ line ∈ decode, line.indent = level ∧
          ∃ q ∈ part :: rest, isDecodeStatement c q line.text := by
      intro decode level hd line hline
      obtain ⟨h1, q, hq, h2⟩ := hd line hline
      exact ⟨h1, q, List.mem_cons_of_mem _ hq, h2⟩
    split at h
    · cases h
    · split at h
      · obtain ⟨decode, h1, h2⟩ := ih _ h
        exact ⟨decode, h1, hrest decode _ h2⟩
      · split at h
        · obtain ⟨decode, h1, h2⟩ := ih _ h
          refine ⟨[KODE.CodeLine.mk s.level
              (c.mTypeMap.localType part.type part.element ++ " ret;"),
            KODE.CodeLine.mk s.level "ret.deserialize(QVariant::fromValue(args));"] ++
            decode, ?_, ?_⟩
          · rw [h1]; simp [KODE.Code.addLine]
          · intro line hline
            rcases List.mem_append.mp hline with hl | hl
            · simp only [List.mem_cons, List.mem_singleton, List.not_mem_nil, or_false] at hl
              rcases hl with rfl | rfl
              · exact ⟨rfl, part, List.mem_cons_self _ _, Or.inl rfl⟩
              · exact ⟨rfl, part, List.mem_cons_self _ _, Or.inr (Or.inl rfl)⟩
            · exact hrest decode _ (by simpa [KODE.Code.addLine] using h2) line hl
        · split at h
          · obtain ⟨decode, h1, h2⟩ := ih _ h
            exact ⟨decode, h1, hrest decode _ h2⟩
          · obtain ⟨decode, h1, h2⟩ := ih _ h
            refine ⟨[KODE.CodeLine.mk s.level
                (c.mTypeMap.localType part.type part.element ++ " ret;"),
              KODE.CodeLine.mk s.level ("ret.deserialize(" ++
                ("args.value(QLatin1String(\"" ++ part.name ++ "\"))") ++ ");")] ++
              decode, ?_, ?_⟩
            · rw [h1]; simp [KODE.Code.addLine]
            · intro line hline
              rcases List.mem_append.mp hline with hl | hl
              · simp only [List.mem_cons, List.mem_singleton, List.not_mem_nil, or_false] at hl
                rcases hl with rfl | rfl
                · exact ⟨rfl, part, List.mem_cons_self _ _, Or.inl rfl⟩
                · exact ⟨rfl, part, List.mem_cons_self _ _, Or.inr (Or.inr rfl)⟩
              · exact hrest decode _ (by simpa [KODE.Code.addLine] using h2) line hl

/-- C17: the body of the callback slot is the reply declaration, one test of the
fault status with its `else`, and the closing brace at the top level; the fault
branch holds exactly the emit of the failure signal; the else branch holds the
argument list, then statements that decode the parts (declarations of `ret` and
calls of `ret.deserialize`), then exactly one emit of the success signal. So the
body tests the fault status once and each of its two paths emits exactly one of
the two signals. -/
theorem C17_slot_emits_exactly_one_signal (c : Converter) (operation : Operation)
    (binding : Binding)
    (hassert : ∀ part ∈ (c.mWSDL.findMessage operation.output.message).parts,
      c.mTypeMap.localType part.type part.element ≠ "") :
    ∃ (doneSignal errorSignal finishedSlot : KODE.Function) (decode : List KODE.CodeLine)
      (arguments : String),
      c.convertClientOutputMessage_functions operation binding =
        some (doneSignal, errorSignal, finishedSlot) ∧
      finishedSlot.body.lines =
        [{ indent := 0, text := "const KDSoapMessage reply = watcher->returnMessage();" },
          { indent := 0, text := "if (reply.isFault()) \x7b" },
          { indent := 1, text := "emit " ++ errorSignal.name ++ "(reply);" },
          { indent := 0, text := "\x7d else \x7b" },
          { indent := 1, text := "const KDSoapValueList args = reply.arguments();" }] ++
        decode ++
        [{ indent := 1, text := "emit " ++ doneSignal.name ++ "( " ++ arguments ++ " );" },
          { indent := 0, text := "\x7d" }] ∧
      (∀ line ∈ decode, line.indent = 1 ∧
        ∃ part ∈ (c.mWSDL.findMessage operation.output.message).parts,
          isDecodeStatement c part line.text) ∧
      (finishedSlot.body.lines.filter (fun line => decide (line.indent = 0))).map
          KODE.CodeLine.text =
        ["const KDSoapMessage reply = watcher->returnMessage();", "if (reply.isFault()) \x7b",
          "\x7d else \x7b", "\x7d"] := by
  unfold Converter.convertClientOutputMessage_functions
  simp only []
  split
  · rename_i heq
    exact absurd heq (convertClientOutputMessage_parts_ne_none c binding _ hassert _)
  · rename_i d sc pn heq
    obtain ⟨decode, hsc, hdecode⟩ :=
      convertClientOutputMessage_parts_slotCode c binding _ _ _ heq
    have hd := convertClientOutputMessage_parts_fst c binding _ _ _ heq
    simp only at hsc hd hdecode
    have hlevel : ∀ line ∈ decode, line.indent = 1 ∧
        ∃ part ∈ (c.mWSDL.findMessage operation.output.message).parts,
          isDecodeStatement c part line.text := by
      intro line hline
      simpa [KODE.Code.addLine, KODE.Code.indent, KODE.Code.unindent] using hdecode line hline
    have hfilter : decode.filter (fun line => decide (line.indent = 0)) = [] := by
      rw [List.filter_eq_nil_iff]
      intro line hline
      simp [(hlevel line hline).1]
    refine ⟨_, _, _, decode, ",".intercalate pn, rfl, ?_, hlevel, ?_⟩
    · rw [hsc]
      simp [KODE.Function.setBody, KODE.Code.addLine, KODE.Code.indent, KODE.Code.unindent,
        KODE.Function.setDocs, KODE.Function.addArgument]
    · rw [hsc]
      simp [KODE.Function.setBody, KODE.Code.addLine, KODE.Code.indent, KODE.Code.unindent,
        List.filter_cons, hfilter]

/-- C17, at the sample operation `list`, whose output message has a builtin part
and a complex part. -/
theorem C17_slot_emits_exactly_one_signal_witness :
    (∀ part ∈ (sampleConverter.mWSDL.findMessage sampleOperationTwo.output.message).parts,
      sampleConverter.mTypeMap.localType part.type part.element ≠ "") ∧
    (sampleConverter.convertClientOutputMessage_functions sampleOperationTwo rpcBinding).map
        (fun built => built.2.2.body.lines) =
      some [{ indent := 0, text := "const KDSoapMessage reply = watcher->returnMessage();" },
        { indent := 0, text := "if (reply.isFault()) \x7b" },
        { indent := 1, text := "emit listError(reply);" },
        { indent := 0, text := "\x7d else \x7b" },
        { indent := 1, text := "const KDSoapValueList args = reply.arguments();" },
        { indent := 1, text := "TNS__Employee ret;" },
        { indent := 1, text := "ret.deserialize(args.value(QLatin1String(\"Item\")));" },
        { indent := 1,
          text := "emit listDone( args.value(QLatin1String(\"Title\")).value<QString>(),ret );" },
        { indent := 0, text := "\x7d" }] ∧
    ∃ (doneSignal errorSignal finishedSlot : KODE.Function) (decode : List KODE.CodeLine)
      (arguments : String),
      sampleConverter.convertClientOutputMessage_functions sampleOperationTwo rpcBinding =
        some (doneSignal, errorSignal, finishedSlot) ∧
      finishedSlot.body.lines =
        [{ indent := 0, text := "const KDSoapMessage reply = watcher->returnMessage();" },
          { indent := 0, text := "if (reply.isFault()) \x7b" },
          { indent := 1, text := "emit " ++ errorSignal.name ++ "(reply);" },
          { indent := 0, text := "\x7d else \x7b" },
          { indent := 1, text := "const KDSoapValueList args = reply.arguments();" }] ++
        decode ++
        [{ indent := 1, text := "emit " ++ doneSignal.name ++ "( " ++ arguments ++ " );" },
          { indent := 0, text := "\x7d" }] ∧
      (∀ line ∈ decode, line.indent = 1 ∧
        ∃ part ∈ (sampleConverter.mWSDL.findMessage sampleOperationTwo.output.message).parts,
          isDecodeStatement sampleConverter part line.text) ∧
      (finishedSlot.body.lines.filter (fun line => decide (line.indent = 0))).map
          KODE.CodeLine.text =
        ["const KDSoapMessage reply = watcher->returnMessage();", "if (reply.isFault()) \x7b",
          "\x7d else \x7b", "\x7d"] :=
  ⟨by decide, by decide,
    C17_slot_emits_exactly_one_signal sampleConverter sampleOperationTwo rpcBinding (by decide)⟩

/-! ## The blocking method reads the first output part only -/

theorem clientAddArguments_parts_congr (c1 c2 : Converter)
    (htypes : c1.mTypeMap = c2.mTypeMap) (hnames : c1.mNameMapper = c2.mNameMapper)
    (parts : List Part) (st : KODE.Function × KODE.Class) :
    c1.clientAddArguments_parts parts st = c2.clientAddArguments_parts parts st := by
  induction parts generalizing st with
  | nil => rfl
  | cons part rest ih =>
    obtain ⟨f, cls⟩ := st
    simp only [Converter.clientAddArguments_parts, Converter.clientAddOneArgument, htypes,
      hnames, ih]

theorem clientGenerateMessage_congr (c1 c2 : Converter) (htypes : c1.mTypeMap = c2.mTypeMap)
    (code : KODE.Code) (binding : Binding) (message : Message) (operation : Operation) :
    c1.clientGenerateMessage code binding message operation =
      c2.clientGenerateMessage code binding message operation := by
  have harg : (fun code part => c1.clientAddMessageArgument code binding part) =
      (fun code part => c2.clientAddMessageArgument code binding part) := by
    funext code part
    simp only [Converter.clientAddMessageArgument, htypes]
  simp only [Converter.clientGenerateMessage, harg]

/-- C18: the blocking method uses only the first part of the output message. For
two generators with the same type mapper and name mapper and the same input
message of the operation, whose output messages of the operation start with the
same part, `convertClientCall` builds the same blocking method (the same return
type and the same body, and also the same name, arguments and documentation),
whatever the remaining output parts are. -/
theorem C18_blocking_method_uses_first_part_only (c1 c2 : Converter) (operation : Operation)
    (binding : Binding) (newClass : KODE.Class) (first : Part) (rest1 rest2 : List Part)
    (htypes : c1.mTypeMap = c2.mTypeMap) (hnames : c1.mNameMapper = c2.mNameMapper)
    (hinput : c1.mWSDL.findMessage operation.input.message =
      c2.mWSDL.findMessage operation.input.message)
    (hparts1 : (c1.mWSDL.findMessage operation.output.message).parts = first :: rest1)
    (hparts2 : (c2.mWSDL.findMessage operation.output.message).parts = first :: rest2) :
    (c1.convertClientCall_callFunc operation binding newClass).1 =
        (c2.convertClientCall_callFunc operation binding newClass).1 ∧
    (c1.convertClientCall_callFunc operation binding newClass).1.returnType =
        (c2.convertClientCall_callFunc operation binding newClass).1.returnType ∧
    (c1.convertClientCall_callFunc operation binding newClass).1.body =
        (c2.convertClientCall_callFunc operation binding newClass).1.body := by
  have hrequest : c1.convertClientCall_request operation binding newClass =
      c2.convertClientCall_request operation binding newClass := by
    simp only [Converter.convertClientCall_request, Converter.clientAddArguments, hinput,
      hnames, clientAddArguments_parts_congr c1 c2 htypes hnames,
      clientGenerateMessage_congr c1 c2 htypes, Converter.clientAddAction]
  have hfun : (c1.convertClientCall_callFunc operation binding newClass).1 =
      (c2.convertClientCall_callFunc operation binding newClass).1 := by
    simp only [Converter.convertClientCall_callFunc, hrequest, hparts1, hparts2,
      Converter.convertClientCall_returnValue, htypes]
    rfl
  exact ⟨hfun, congrArg KODE.Function.returnType hfun, congrArg KODE.Function.body hfun⟩

/-- C18, at the sample operation `add` with the reply message of one part and
with the reply message extended by a second part: both blocking methods return
`TNS__Employee`. -/
theorem C18_blocking_method_uses_first_part_only_witness :
    sampleConverter.mTypeMap = sampleConverterExtraPart.mTypeMap ∧
    sampleConverter.mNameMapper = sampleConverterExtraPart.mNameMapper ∧
    sampleConverter.mWSDL.findMessage
        (sampleOperation OperationType.RequestResponseOperation).input.message =
      sampleConverterExtraPart.mWSDL.findMessage
        (sampleOperation OperationType.RequestResponseOperation).input.message ∧
    (sampleConverter.mWSDL.findMessage
        (sampleOperation OperationType.RequestResponseOperation).output.message).parts =
      { name := "Result", type := tns "Employee" } :: [] ∧
    (sampleConverterExtraPart.mWSDL.findMessage
        (sampleOperation OperationType.RequestResponseOperation).output.message).parts =
      { name := "Result", type := tns "Employee" } ::
        [{ name := "Title", type := xsd "string" }] ∧
    (sampleConverter.convertClientCall_callFunc
        (sampleOperation OperationType.RequestResponseOperation) rpcBinding
        emptyClass).1.returnType = "TNS__Employee" ∧
    ((sampleConverter.convertClientCall_callFunc
          (sampleOperation OperationType.RequestResponseOperation) rpcBinding emptyClass).1 =
        (sampleConverterExtraPart.convertClientCall_callFunc
          (sampleOperation OperationType.RequestResponseOperation) rpcBinding emptyClass).1 ∧
      (sampleConverter.convertClientCall_callFunc
          (sampleOperation OperationType.RequestResponseOperation) rpcBinding
          emptyClass).1.returnType =
        (sampleConverterExtraPart.convertClientCall_callFunc
          (sampleOperation OperationType.RequestResponseOperation) rpcBinding
          emptyClass).1.returnType ∧
      (sampleConverter.convertClientCall_callFunc
          (sampleOperation OperationType.RequestResponseOperation) rpcBinding
          emptyClass).1.body =
        (sampleConverterExtraPart.convertClientCall_callFunc
          (sampleOperation OperationType.RequestResponseOperation) rpcBinding
          emptyClass).1.body) :=
  ⟨rfl, rfl, rfl, rfl, rfl, by decide,
    C18_blocking_method_uses_first_part_only sampleConverter sampleConverterExtraPart
      (sampleOperation OperationType.RequestResponseOperation) rpcBinding emptyClass
      { name := "Result", type := tns "Employee" } []
      [{ name := "Title", type := xsd "string" }] rfl rfl rfl rfl rfl⟩

/-! ## The name of the callback slot -/

theorem toNat_ofNat_letter (n : Nat) (h : n ≤ 122) : (Char.ofNat n).toNat = n := by
  interval_cases n <;> rfl

theorem toUpper_toLower (ch : Char) : ch.toLower.toUpper = ch.toUpper := by
  by_cases hupper : ch.toNat ≥ 65 ∧ ch.toNat ≤ 90
  · have hlow : ch.toLower = Char.ofNat (ch.toNat + 32) := by
      simp only [Char.toLower, hupper, and_self, if_true]
    have hnat : (Char.ofNat (ch.toNat + 32)).toNat = ch.toNat + 32 :=
      toNat_ofNat_letter _ (by omega)
    have h1 : ch.toLower.toUpper = ch := by
      rw [hlow]
      simp only [Char.toUpper, hnat]
      rw [if_pos (by omega), Nat.add_sub_cancel, Char.ofNat_toNat]
    have h2 : ch.toUpper = ch := by
      simp only [Char.toUpper]
      rw [if_neg (by omega)]
    rw [h1, h2]
  · have hlow : ch.toLower = ch := by
      simp only [Char.toLower]
      rw [if_neg hupper]
    rw [hlow]

/-- Lower-casing the first character before upper-casing it changes nothing. -/
theorem upperlize_lowerlize (name : String) : upperlize (lowerlize name) = upperlize name := by
  cases hdata : name.data with
  | nil => simp [upperlize, lowerlize, hdata]
  | cons ch rest => simp [upperlize, lowerlize, hdata, toUpper_toLower]

/-- C19: for a request-response operation, the slot that the async initiator
connects the watcher to is the callback slot that `convertClientOutputMessage`
emits for the operation: the name `"_kd_slot" + upperlize(name) + "Finished"`
used in the `connect` statement, the last statement of the initiator, equals the
name `"_kd_slot" + upperlize(lowerlize(name)) + "Finished"` of the emitted
slot. -/
theorem C19_watcher_is_connected_to_the_emitted_slot (c : Converter) (operation : Operation)
    (binding : Binding) (newClass : KODE.Class)
    (hkind : operation.operationType = OperationType.RequestResponseOperation)
    (hassert : ∀ part ∈ (c.mWSDL.findMessage operation.output.message).parts,
      c.mTypeMap.localType part.type part.element ≠ "") :
    ∃ asyncFunc doneSignal errorSignal finishedSlot,
      (c.convertClientInputMessage operation binding newClass).functions =
        newClass.functions ++ [asyncFunc] ∧
      c.convertClientOutputMessage_functions operation binding =
        some (doneSignal, errorSignal, finishedSlot) ∧
      "_kd_slot" ++ upperlize operation.name ++ "Finished" = finishedSlot.name ∧
      finishedSlot.name = "_kd_slot" ++ upperlize (lowerlize operation.name) ++ "Finished" ∧
      asyncFunc.body.texts.getLast? =
        some ("connect(watcher, SIGNAL(finished(KDSoapPendingCallWatcher*)),\n" ++
          "        this, SLOT(" ++ finishedSlot.name ++ "(KDSoapPendingCallWatcher*)));") := by
  obtain ⟨d, e, s, hfun, -, -, hs⟩ :=
    convertClientOutputMessage_functions_some c operation binding hassert
  have hinput := convertClientInputMessage_functions c operation binding newClass
  rw [if_pos hkind] at hinput
  have hname : "_kd_slot" ++ upperlize operation.name ++ "Finished" = s.name := by
    rw [hs.1, upperlize_lowerlize]
  refine ⟨_, d, e, s, hinput, hfun, hname, hs.1, ?_⟩
  rw [← hname]
  simp [KODE.Function.setBody, KODE.Code.texts, KODE.Code.addLine]

/-- C19, at the sample request-response operation `add`: the watcher is connected
to `_kd_slotAddFinished`. -/
theorem C19_watcher_is_connected_to_the_emitted_slot_witness :
    (sampleOperation OperationType.RequestResponseOperation).operationType =
      OperationType.RequestResponseOperation ∧
    (∀ part ∈ (sampleConverter.mWSDL.findMessage
        (sampleOperation OperationType.RequestResponseOperation).output.message).parts,
      sampleConverter.mTypeMap.localType part.type part.element ≠ "") ∧
    "_kd_slot" ++ upperlize (sampleOperation OperationType.RequestResponseOperation).name ++
      "Finished" = "_kd_slotAddFinished" ∧
    ∃ asyncFunc doneSignal errorSignal finishedSlot,
      (sampleConverter.convertClientInputMessage
          (sampleOperation OperationType.RequestResponseOperation) rpcBinding
          emptyClass).functions = emptyClass.functions ++ [asyncFunc] ∧
      sampleConverter.convertClientOutputMessage_functions
          (sampleOperation OperationType.RequestResponseOperation) rpcBinding =
        some (doneSignal, errorSignal, finishedSlot) ∧
      "_kd_slot" ++ upperlize (sampleOperation OperationType.RequestResponseOperation).name ++
        "Finished" = finishedSlot.name ∧
      finishedSlot.name = "_kd_slot" ++
        upperlize (lowerlize (sampleOperation OperationType.RequestResponseOperation).name) ++
          "Finished" ∧
      asyncFunc.body.texts.getLast? =
        some ("connect(watcher, SIGNAL(finished(KDSoapPendingCallWatcher*)),\n" ++
          "        this, SLOT(" ++ finishedSlot.name ++ "(KDSoapPendingCallWatcher*)));") :=
  ⟨rfl, by decide, by decide,
    C19_watcher_is_connected_to_the_emitted_slot sampleConverter
      (sampleOperation OperationType.RequestResponseOperation) rpcBinding emptyClass rfl
      (by decide)⟩

/-! ## The blocking method with return type `void` -/

/-- C21: when the output message of an operation has no parts, the blocking
method is declared with return type `void`, yet its body goes on after the fault
check with three decoding statements: the declaration ` ret;` of a local
variable without type, a call of `ret.deserialize`, and `return ret;`. This
holds for every generator, operation and binding, and is evaluated at the
operation `ping`. When the first output part is of type `void`, as in the sample
reply `AckReply`, the body ends with the fault check. -/
theorem C21_void_method_without_output_parts_decodes :
    (∀ (c : Converter) (operation : Operation) (binding : Binding) (newClass : KODE.Class),
      ((c.withMessage operation.output.message {}).convertClientCall_callFunc operation binding
          newClass).1.returnType = "void" ∧
      ((c.withMessage operation.output.message {}).convertClientCall_callFunc operation binding
          newClass).1.body.texts =
        ((c.withMessage operation.output.message {}).convertClientCall_request operation
          binding newClass).2.1.texts ++
          ["if (d_ptr->m_lastReply.isFault())", "return ();", " ret;",
            "ret.deserialize(d_ptr->m_lastReply.arguments().first().value());",
            "return ret;"]) ∧
    ((sampleConverter.mWSDL.findMessage pingOperation.output.message).parts = [] ∧
      (sampleConverter.convertClientCall_callFunc pingOperation rpcBinding
          emptyClass).1.returnType = "void" ∧
      ((sampleConverter.convertClientCall_callFunc pingOperation rpcBinding
          emptyClass).1.body.texts.drop 3) =
        ["if (d_ptr->m_lastReply.isFault())", "return ();", " ret;",
          "ret.deserialize(d_ptr->m_lastReply.arguments().first().value());",
          "return ret;"]) ∧
    (((sampleConverterWith sampleReplyVoidFirst).convertClientCall_callFunc
          (sampleOperation OperationType.RequestResponseOperation) rpcBinding
          emptyClass).1.returnType = "void" ∧
      (((sampleConverterWith sampleReplyVoidFirst).convertClientCall_callFunc
          (sampleOperation OperationType.RequestResponseOperation) rpcBinding
          emptyClass).1.body.texts.drop 4) =
        ["if (d_ptr->m_lastReply.isFault())", "return void();"]) := by
  refine ⟨?_, by decide, by decide⟩
  intro c operation binding newClass
  have hparts : ((c.withMessage operation.output.message {}).mWSDL.findMessage
      operation.output.message).parts = [] := by
    simp [Converter.withMessage]
  constructor
  · have hname := convertClientCall_request_name (c.withMessage operation.output.message {})
      operation binding newClass
    simp [Converter.convertClientCall_callFunc, hparts, KODE.Function.setBody, hname.2.2]
  · rw [convertClientCall_callFunc_body, hparts]
    simp [Converter.convertClientCall_returnValue, convertClientCall_decode, KODE.Code.texts,
      KODE.Code.addLine, KODE.Code.indent, KODE.Code.unindent]

/-! ## The names of the header setters -/

theorem createHeader_headerSetter_name (c : Converter) (header : Header) (binding : Binding)
    (newClass : KODE.Class) :
    (c.createHeader_headerSetter header binding newClass).1.name =
      if !("Header".data.isSuffixOf ("set" ++ upperlize header.part).data) then
        "set" ++ upperlize header.part ++ "Header"
      else "set" ++ upperlize header.part := by
  unfold Converter.createHeader_headerSetter
  simp only [KODE.Function.setBody, KODE.Function.setDocs]
  rw [(clientAddOneArgument_name c _ _ newClass).1]

theorem string_append_left_cancel (s a b : String) (h : s ++ a = s ++ b) : a = b := by
  have hd := congrArg String.data h
  simp only [String.data_append] at hd
  exact String.ext (List.append_cancel_left hd)

theorem string_append_right_cancel (a b s : String) (h : a ++ s = b ++ s) : a = b := by
  have hd := congrArg String.data h
  simp only [String.data_append] at hd
  exact String.ext (List.append_cancel_right hd)

/-- C22 (counterexample): in the binding `rpcWithAuth` the headers of the parts
`X` and `XHeader` of the message `Auth` are two distinct identities with
different part names, both are collected, and both get the setter name
`setXHeader`; likewise the two headers of part name `Token` in the messages
`Session` and `AddRequest` are distinct identities and both get the setter name
`setTokenHeader`. The class ends up with two functions of each name. -/
theorem C22_counterexample_setter_names_collide :
    xHeader.identity ≠ xHeaderHeader.identity ∧ xHeader.part ≠ xHeaderHeader.part ∧
    sessionHeader.identity ≠ otherTokenHeader.identity ∧
    (referencedHeaders authBinding sampleOperations).foldl collectHeader [] =
      [xHeader, xHeaderHeader, sessionHeader, otherTokenHeader] ∧
    ((sampleConverterWith sampleAuth).createHeader_headerSetter xHeader authBinding
        emptyClass).1.name = "setXHeader" ∧
    ((sampleConverterWith sampleAuth).createHeader_headerSetter xHeaderHeader authBinding
        emptyClass).1.name = "setXHeader" ∧
    (sampleConverter.createHeader_headerSetter sessionHeader authBinding
        emptyClass).1.name = "setTokenHeader" ∧
    (sampleConverter.createHeader_headerSetter otherTokenHeader authBinding
        emptyClass).1.name = "setTokenHeader" ∧
    ((sampleConverterWith sampleAuth).convertClientService_headers authBinding
        [xHeader, xHeaderHeader, sessionHeader, otherTokenHeader] emptyClass).functions.map
          (fun function => function.name) =
      ["setXHeader", "setXHeader", "setTokenHeader", "setTokenHeader"] := by
  decide

/-- C22: two headers get different setter names from `createHeader` whenever
their part names, with the first letter put in upper case, are different and
neither is the other followed by `Header`. -/
theorem C22_setter_names_distinct (c : Converter) (binding : Binding) (first second : Header)
    (newClass otherClass : KODE.Class)
    (hne : upperlize first.part ≠ upperlize second.part)
    (hfirst : upperlize first.part ≠ upperlize second.part ++ "Header")
    (hsecond : upperlize second.part ≠ upperlize first.part ++ "Header") :
    (c.createHeader_headerSetter first binding newClass).1.name ≠
      (c.createHeader_headerSetter second binding otherClass).1.name := by
  rw [createHeader_headerSetter_name, createHeader_headerSetter_name]
  intro h
  split at h <;> split at h
  · exact hne (string_append_left_cancel _ _ _ (string_append_right_cancel _ _ _ h))
  · rw [String.append_assoc] at h
    exact hsecond (string_append_left_cancel _ _ _ h).symm
  · rw [String.append_assoc] at h
    exact hfirst (string_append_left_cancel _ _ _ h)
  · exact hne (string_append_left_cancel _ _ _ h)

theorem C22_setter_names_distinct_witness :
    upperlize sessionHeader.part ≠ upperlize nameHeader.part ∧
    upperlize sessionHeader.part ≠ upperlize nameHeader.part ++ "Header" ∧
    upperlize nameHeader.part ≠ upperlize sessionHeader.part ++ "Header" ∧
    (sampleConverter.createHeader_headerSetter sessionHeader headerBinding emptyClass).1.name ≠
      (sampleConverter.createHeader_headerSetter nameHeader headerBinding emptyClass).1.name :=
  ⟨by decide, by decide, by decide,
    C22_setter_names_distinct sampleConverter headerBinding sessionHeader nameHeader emptyClass
      emptyClass (by decide) (by decide) (by decide)⟩

/-! ## The header setters of the service class -/

end KWSDL
